import Mathlib

/-!
# Verification of the SWMM lifecycle controller, property interface and
# binary output reader

Shallow embedding of the engine module (swmm5.c) and of the binary output
file reader (swmm_output.c).  C doubles are modelled as exact rationals,
C ints as `Int`.  External kernels (runoff.c, routing.c, link.c, the
project manager and the date/time library, none of which are part of the
sources under verification) appear either as oracle functions collected in
a `Kernels` record, constrained by `KernelsOK` to the contract the
specification gives them, or as explicitly spec-modelled definitions.
-/

set_option linter.unusedVariables false

/-- Bounded list lookup with a default, for C array reads `a[i]` guarded by
an `Int` index. -/
def listGetD {α : Type} (xs : List α) (i : Int) (d : α) : α :=
  if 0 ≤ i then xs.getD i.toNat d else d

/-- Bounded list update, for C array writes `a[i] = v` guarded by an `Int`
index.  Out-of-range writes (which are memory-unsafe in the C source) leave
the list unchanged. -/
def listSet {α : Type} (xs : List α) (i : Int) (a : α) : List α :=
  if 0 ≤ i then xs.set i.toNat a else xs

/-! ## Binary output file reader (swmm_output.c)

The file is modelled by the values the reader can extract from it: the
header and epilogue records, and the raw 4-byte records of the results
region exposed as a function from byte offsets to values. -/

/-- `RECORDSIZE` in swmm_output.c: 4 byte records. -/
def RECORDSIZE : Int := 4

/-- `DATESIZE` in swmm_output.c: dates are stored in 8 bytes. -/
def DATESIZE : Int := 8

/-- A SWMM binary output file, as seen through the reads the reader
performs: leading magic number, epilogue records, header counts, variable
counts, the start date / report step block, and the byte-addressed results
region (`payload o` is the 4-byte value starting at byte offset `o`). -/
structure OutFile where
  magic1 : Int
  magic2 : Int
  idPos : Int
  objPropPos : Int
  resultsPos : Int
  nperiods : Int
  errCodeAtWrite : Int
  nsubcatch : Int
  nnodes : Int
  nlinks : Int
  npolluts : Int
  subcatchVars : Int
  nodeVars : Int
  linkVars : Int
  sysVars : Int
  startDate : ℚ
  reportStepSec : Int
  payload : Int → ℚ

/-- `validateFile` (swmm_output.c): reads the epilogue and the leading
magic number and checks the file invariants, returning 435 on a magic
mismatch, 436 when no result periods are recorded, warning 10 when the
trailing error code written at simulation time was non-zero, 0 otherwise. -/
def validateFile (f : OutFile) : Int :=
  if f.magic1 ≠ f.magic2 then 435
  else if f.nperiods ≤ 0 then 436
  else if f.errCodeAtWrite ≠ 0 then 10
  else 0

/-- The reader handle's cached header fields (`data_t` in swmm_output.c),
as filled in by `SMO_open`.  The handle keeps the opened file (for the
results `payload`). -/
structure SMOData where
  file : OutFile
  nperiods : Int
  nsubcatch : Int
  nnodes : Int
  nlinks : Int
  npolluts : Int
  subcatchVars : Int
  nodeVars : Int
  linkVars : Int
  sysVars : Int
  startDate : ℚ
  reportStep : Int
  idPos : Int
  objPropPos : Int
  resultsPos : Int
  bytesPerPeriod : Int

/-- The header-reading block of `SMO_open` (executed when the validation
code is below 400): caches the element counts, the variable counts, the
start date and report step, and computes `BytesPerPeriod`. -/
def readHeader (f : OutFile) : SMOData :=
  { file := f
    nperiods := f.nperiods
    nsubcatch := f.nsubcatch
    nnodes := f.nnodes
    nlinks := f.nlinks
    npolluts := f.npolluts
    subcatchVars := f.subcatchVars
    nodeVars := f.nodeVars
    linkVars := f.linkVars
    sysVars := f.sysVars
    startDate := f.startDate
    reportStep := f.reportStepSec
    idPos := f.idPos
    objPropPos := f.objPropPos
    resultsPos := f.resultsPos
    bytesPerPeriod := DATESIZE +
      (f.nsubcatch * f.subcatchVars + f.nnodes * f.nodeVars +
       f.nlinks * f.linkVars + f.sysVars) * RECORDSIZE }

/-- `SMO_open` (swmm_output.c) on a file that the operating system could
open (the 434 fopen-failure path is outside the model): validates the file,
reads the header when the validation code is below 400, and closes the
handle (no cached data) when the code exceeds 400.  Returns the error code
and the handle's cached data when it survives. -/
def SMO_open (f : OutFile) : Int × Option SMOData :=
  let errorcode := validateFile f
  let d := if errorcode < 400 then some (readHeader f) else none
  if errorcode > 400 then (errorcode, none) else (errorcode, d)

/-- `getSubcatchValue` (swmm_output.c, reader side): one float of one
subcatchment at one period, located by offset arithmetic from the cached
header fields. -/
def outGetSubcatchValue (d : SMOData) (timeIndex subcatchIndex attr : Int) : ℚ :=
  d.file.payload (d.resultsPos + timeIndex * d.bytesPerPeriod + 2 * RECORDSIZE +
    RECORDSIZE * (subcatchIndex * d.subcatchVars + attr))

/-- `getNodeValue` (swmm_output.c, reader side). -/
def outGetNodeValue (d : SMOData) (timeIndex nodeIndex attr : Int) : ℚ :=
  d.file.payload (d.resultsPos + timeIndex * d.bytesPerPeriod + 2 * RECORDSIZE +
    RECORDSIZE * (d.nsubcatch * d.subcatchVars + nodeIndex * d.nodeVars + attr))

/-- `getLinkValue` (swmm_output.c, reader side). -/
def outGetLinkValue (d : SMOData) (timeIndex linkIndex attr : Int) : ℚ :=
  d.file.payload (d.resultsPos + timeIndex * d.bytesPerPeriod + 2 * RECORDSIZE +
    RECORDSIZE * (d.nsubcatch * d.subcatchVars + d.nnodes * d.nodeVars +
      linkIndex * d.linkVars + attr))

/-- `SMO_getSubcatchSeries` (swmm_output.c): bounds checks, then the series
of one attribute of one subcatchment over `[startPeriod, endPeriod)`.
Allocation is modelled as always succeeding (the 411 malloc-failure path is
outside the model). -/
def SMO_getSubcatchSeries (d : SMOData) (subcatchIndex attr startPeriod endPeriod : Int) :
    Int × Option (List ℚ) :=
  if subcatchIndex < 0 ∨ subcatchIndex > d.nsubcatch then (420, none)
  else if startPeriod < 0 ∨ startPeriod ≥ d.nperiods ∨ endPeriod ≤ startPeriod then (422, none)
  else
    let len := endPeriod - startPeriod
    (0, some ((List.range len.toNat).map fun k =>
      outGetSubcatchValue d (startPeriod + k) subcatchIndex attr))

/-- `SMO_getNodeSeries` (swmm_output.c). -/
def SMO_getNodeSeries (d : SMOData) (nodeIndex attr startPeriod endPeriod : Int) :
    Int × Option (List ℚ) :=
  if nodeIndex < 0 ∨ nodeIndex > d.nnodes then (420, none)
  else if startPeriod < 0 ∨ startPeriod ≥ d.nperiods ∨ endPeriod ≤ startPeriod then (422, none)
  else
    let len := endPeriod - startPeriod
    (0, some ((List.range len.toNat).map fun k =>
      outGetNodeValue d (startPeriod + k) nodeIndex attr))

/-- `SMO_getLinkSeries` (swmm_output.c). -/
def SMO_getLinkSeries (d : SMOData) (linkIndex attr startPeriod endPeriod : Int) :
    Int × Option (List ℚ) :=
  if linkIndex < 0 ∨ linkIndex > d.nlinks then (420, none)
  else if startPeriod < 0 ∨ startPeriod ≥ d.nperiods ∨ endPeriod ≤ startPeriod then (422, none)
  else
    let len := endPeriod - startPeriod
    (0, some ((List.range len.toNat).map fun k =>
      outGetLinkValue d (startPeriod + k) linkIndex attr))

/-! ## Engine constants

The engine sources under verification include `swmm5.h`'s declarations
only through the build; the numeric values below are therefore modelled.
The claims depend only on the codes being pairwise distinct (and, for the
API error codes, non-zero), which the spec guarantees through its
disjoint-range tables. -/

/-- Milliseconds per day (`MSECperDAY` in macros.h); elapsed time in
decimal days is `ms / 86400000` (spec 4.7). -/
def MSECperDAY : ℚ := 86400000

/-- Seconds per day (`SECperDAY`). -/
def SECperDAY : ℚ := 86400

/-- Modelled from the spec: object type codes of the `swmm_Object` enum
(swmm5.h is not under src/); `swmm_SYSTEM` sits apart from the array
object codes. -/
def swmm_GAGE : Int := 0
def swmm_SUBCATCH : Int := 1
def swmm_NODE : Int := 2
def swmm_LINK : Int := 3
def swmm_SYSTEM : Int := 100

/-- Modelled from the spec: property codes are drawn from disjoint numeric
ranges per object class (system < 100, gauge 100-199, subcatchment
200-299, node 300-399, link 400-499); swmm5.h is not under src/. -/
def swmm_STARTDATE : Int := 0
def swmm_CURRENTDATE : Int := 1
def swmm_ELAPSEDTIME : Int := 2
def swmm_ROUTESTEP : Int := 3
def swmm_MAXROUTESTEP : Int := 4
def swmm_REPORTSTEP : Int := 5
def swmm_TOTALSTEPS : Int := 6
def swmm_NOREPORT : Int := 7
def swmm_FLOWUNITS : Int := 8
def swmm_ENDDATE : Int := 9
def swmm_REPORTSTART : Int := 10
def swmm_UNITSYSTEM : Int := 11
def swmm_SURCHARGEMETHOD : Int := 12
def swmm_ALLOWPONDING : Int := 13
def swmm_INERTIADAMPING : Int := 14
def swmm_NORMALFLOWLTD : Int := 15
def swmm_SKIPSTEADYSTATE : Int := 16
def swmm_IGNORERAINFALL : Int := 17
def swmm_IGNORERDII : Int := 18
def swmm_IGNORESNOWMELT : Int := 19
def swmm_IGNOREGROUNDWATER : Int := 20
def swmm_IGNOREROUTING : Int := 21
def swmm_IGNOREQUALITY : Int := 22
def swmm_ERROR_CODE : Int := 23
def swmm_RULESTEP : Int := 24
def swmm_SWEEPSTART : Int := 25
def swmm_SWEEPEND : Int := 26
def swmm_MAXTRIALS : Int := 27
def swmm_NUMTHREADS : Int := 28
def swmm_MINROUTESTEP : Int := 29
def swmm_LENGTHENINGSTEP : Int := 30
def swmm_STARTDRYDAYS : Int := 31
def swmm_COURANTFACTOR : Int := 32
def swmm_MINSURFAREA : Int := 33
def swmm_MINSLOPE : Int := 34
def swmm_RUNOFFERROR : Int := 35
def swmm_FLOWERROR : Int := 36
def swmm_HEADTOL : Int := 37
def swmm_SYSFLOWTOL : Int := 38
def swmm_LATFLOWTOL : Int := 39

def swmm_GAGE_TOTAL_PRECIPITATION : Int := 100
def swmm_GAGE_RAINFALL : Int := 101
def swmm_GAGE_SNOWFALL : Int := 102

def swmm_SUBCATCH_AREA : Int := 200
def swmm_SUBCATCH_RAINGAGE : Int := 201
def swmm_SUBCATCH_RAINFALL : Int := 202
def swmm_SUBCATCH_EVAP : Int := 203
def swmm_SUBCATCH_INFIL : Int := 204
def swmm_SUBCATCH_RUNOFF : Int := 205
def swmm_SUBCATCH_RPTFLAG : Int := 206
def swmm_SUBCATCH_WIDTH : Int := 207
def swmm_SUBCATCH_SLOPE : Int := 208
def swmm_SUBCATCH_CURB_LENGTH : Int := 209
def swmm_SUBCATCH_API_RAINFALL : Int := 210
def swmm_SUBCATCH_API_SNOWFALL : Int := 211
def swmm_SUBCATCH_POLLUTANT_BUILDUP : Int := 212
def swmm_SUBCATCH_EXTERNAL_POLLUTANT_BUILDUP : Int := 213

def swmm_NODE_TYPE : Int := 300
def swmm_NODE_ELEV : Int := 301
def swmm_NODE_MAXDEPTH : Int := 302
def swmm_NODE_DEPTH : Int := 303
def swmm_NODE_HEAD : Int := 304
def swmm_NODE_VOLUME : Int := 305
def swmm_NODE_LATFLOW : Int := 306
def swmm_NODE_INFLOW : Int := 307
def swmm_NODE_OVERFLOW : Int := 308
def swmm_NODE_RPTFLAG : Int := 309
def swmm_NODE_SURCHARGE_DEPTH : Int := 310
def swmm_NODE_PONDED_AREA : Int := 311
def swmm_NODE_INITIAL_DEPTH : Int := 312
def swmm_NODE_POLLUTANT_CONCENTRATION : Int := 313
def swmm_NODE_POLLUTANT_LATMASS_FLUX : Int := 314

def swmm_LINK_TYPE : Int := 400
def swmm_LINK_NODE1 : Int := 401
def swmm_LINK_NODE2 : Int := 402
def swmm_LINK_LENGTH : Int := 403
def swmm_LINK_SLOPE : Int := 404
def swmm_LINK_FULLDEPTH : Int := 405
def swmm_LINK_FULLFLOW : Int := 406
def swmm_LINK_SETTING : Int := 407
def swmm_LINK_TIMEOPEN : Int := 408
def swmm_LINK_TIMECLOSED : Int := 409
def swmm_LINK_FLOW : Int := 410
def swmm_LINK_DEPTH : Int := 411
def swmm_LINK_VELOCITY : Int := 412
def swmm_LINK_TOPWIDTH : Int := 413
def swmm_LINK_RPTFLAG : Int := 414
def swmm_LINK_OFFSET1 : Int := 415
def swmm_LINK_OFFSET2 : Int := 416
def swmm_LINK_INITIAL_FLOW : Int := 417
def swmm_LINK_FLOW_LIMIT : Int := 418
def swmm_LINK_INLET_LOSS : Int := 419
def swmm_LINK_OUTLET_LOSS : Int := 420
def swmm_LINK_AVERAGE_LOSS : Int := 421
def swmm_LINK_SEEPAGE_RATE : Int := 422
def swmm_LINK_HAS_FLAPGATE : Int := 423
def swmm_LINK_POLLUTANT_LATMASS_FLUX : Int := 424

/-- Modelled from the spec: engine API error codes (error.h is not under
src/); the API lifecycle errors sit in the 400-409 band and the API value
errors in 410-429, simulation numerical errors in 200-299 (spec section
7). -/
def ERR_API_NOT_OPEN : Int := 401
def ERR_API_NOT_STARTED : Int := 402
def ERR_API_NOT_ENDED : Int := 403
def ERR_API_IS_RUNNING : Int := 404
def ERR_API_OBJECT_TYPE : Int := 411
def ERR_API_OBJECT_INDEX : Int := 412
def ERR_API_PROPERTY_TYPE : Int := 414
def ERR_API_PROPERTY_VALUE : Int := 415

/-- Modelled from the spec: `ERR_TIMESTEP` is the "timestep too small"
simulation numerical error (200-299 band). -/
def ERR_TIMESTEP : Int := 200

/-- Modelled from the spec: object sub-type enumerations from objects.h
(not under src/).  Only distinctness matters to the claims. -/
def CONDUIT : Int := 0
def PUMP : Int := 1
def OUTFALL : Int := 1
def FIXED_OUTFALL : Int := 2
def US : Int := 0
def SI : Int := 1
def DW : Int := 4
def EXTRAN : Int := 0
def SLOT : Int := 1
def NO_DAMPING : Int := 0
def FULL_DAMPING : Int := 2
def SLOPE_LIMITED : Int := 0
def NEITHER : Int := 3

/-- Quantity-class codes of the `Ucf` conversion table, in the order of the
rows of the table in swmm5.c; `FLOW` selects the `Qcf` table instead. -/
def RAINFALL : Int := 0
def RAINDEPTH : Int := 1
def EVAPRATE : Int := 2
def LENGTH : Int := 3
def LANDAREA : Int := 4
def VOLUME : Int := 5
def MASS : Int := 8
def GWFLOW : Int := 9
def FLOW : Int := 10

/-! ## Engine state (globals of swmm5.c and the project object graph) -/

/-- Rain gage state touched by the API (`TGage`). -/
structure GageState where
  apiRainfall : ℚ
deriving DecidableEq

/-- Subcatchment state touched by the API (`TSubcatch`). -/
structure SubcatchState where
  area : ℚ
  width : ℚ
  slope : ℚ
  curbLength : ℚ
  apiRainfall : ℚ
  apiSnowfall : ℚ
  rptFlag : Bool
  apiExtBuildup : List ℚ
deriving DecidableEq

/-- Node state touched by the API (`TNode`). -/
structure NodeState where
  typ : Int
  subIndex : Int
  invertElev : ℚ
  fullDepth : ℚ
  surDepth : ℚ
  pondedArea : ℚ
  initDepth : ℚ
  apiExtInflow : ℚ
  rptFlag : Bool
  apiExtQualMassFlux : List ℚ
deriving DecidableEq

/-- Outfall state touched by the API (`TOutfall`). -/
structure OutfallState where
  typ : Int
  fixedStage : ℚ
deriving DecidableEq

/-- Link state touched by the API (`TLink`). -/
structure LinkState where
  id : String
  typ : Int
  targetSetting : ℚ
  setting : ℚ
  timeLastSet : ℚ
  offset1 : ℚ
  offset2 : ℚ
  q0 : ℚ
  qLimit : ℚ
  cLossInlet : ℚ
  cLossOutlet : ℚ
  cLossAvg : ℚ
  seepRate : ℚ
  hasFlapGate : Bool
  rptFlag : Bool
  apiExtQualMassFlux : List ℚ
deriving DecidableEq

/-- A control action written to the text report by
`report_writeControlAction(aDate, linkID, value, label)`. -/
structure ControlAction where
  aDate : ℚ
  linkID : String
  value : ℚ
  label : String
deriving DecidableEq

instance : Inhabited GageState := ⟨{ apiRainfall := 0 }⟩
instance : Inhabited SubcatchState :=
  ⟨{ area := 0, width := 0, slope := 0, curbLength := 0, apiRainfall := 0,
     apiSnowfall := 0, rptFlag := false, apiExtBuildup := [] }⟩
instance : Inhabited NodeState :=
  ⟨{ typ := 0, subIndex := 0, invertElev := 0, fullDepth := 0, surDepth := 0,
     pondedArea := 0, initDepth := 0, apiExtInflow := 0, rptFlag := false,
     apiExtQualMassFlux := [] }⟩
instance : Inhabited OutfallState := ⟨{ typ := 0, fixedStage := 0 }⟩
instance : Inhabited LinkState :=
  ⟨{ id := "", typ := 0, targetSetting := 0, setting := 0, timeLastSet := 0,
     offset1 := 0, offset2 := 0, q0 := 0, qLimit := 0, cLossInlet := 0,
     cLossOutlet := 0, cLossAvg := 0, seepRate := 0, hasFlapGate := false,
     rptFlag := false, apiExtQualMassFlux := [] }⟩

/-- The engine's global state: the shared variables of swmm5.c, the global
simulation clock and option variables of globals.h, and the parts of the
project object graph the claims reach.  The text report's control-action
listing is modelled as an observable event log `reportLog`. -/
structure EngState where
  errorCode : Int
  isOpen : Bool
  isStarted : Bool
  saveResultsFlag : Bool
  doRunoff : Bool
  doRouting : Bool
  totalDuration : ℚ
  routingDuration : ℚ
  newRoutingTime : ℚ
  newRunoffTime : ℚ
  reportTime : ℚ
  reportStep : Int
  wetStep : Int
  routeStep : ℚ
  minRouteStep : ℚ
  lengtheningStep : ℚ
  courantFactor : ℚ
  elapsedTime : ℚ
  startDateTime : ℚ
  endDateTime : ℚ
  reportStart : ℚ
  startDate : ℚ
  startTime : ℚ
  endDate : ℚ
  endTime : ℚ
  reportStartDate : ℚ
  reportStartTime : ℚ
  totalStepCount : Int
  reportStepCount : Int
  nonConvergeCount : Int
  nperiods : Int
  unitSystem : Int
  flowUnits : Int
  routeModel : Int
  surchargeMethod : Int
  inertDamping : Int
  normalFlowLtd : Int
  allowPonding : Bool
  skipSteadyState : Bool
  ignoreRainfall : Bool
  ignoreRDII : Bool
  ignoreSnowmelt : Bool
  ignoreGwater : Bool
  ignoreRouting : Bool
  ignoreQuality : Bool
  ruleStep : Int
  sweepStart : Int
  sweepEnd : Int
  maxTrials : Int
  numThreads : Int
  startDryDays : ℚ
  minSurfArea : ℚ
  minSlope : ℚ
  runoffError : ℚ
  flowError : ℚ
  qualError : ℚ
  headTol : ℚ
  sysFlowTol : ℚ
  latFlowTol : ℚ
  rptDisabled : Bool
  rptControls : Bool
  rptAverages : Bool
  rptInput : Bool
  nGage : Int
  nSubcatch : Int
  nNode : Int
  nLink : Int
  nPollut : Int
  gages : List GageState
  subcatchs : List SubcatchState
  nodes : List NodeState
  outfalls : List OutfallState
  links : List LinkState
  finpFile : Bool
  frptFile : Bool
  foutFile : Bool
  foutScratch : Bool
  reportLog : List ControlAction
deriving DecidableEq

/-! ## External kernels

runoff.c, routing.c, link.c and the project/output/hot-start managers are
outside the sources under verification; the engine module drives them
through the oracle functions below.  `KernelsOK` (further down) pins each
oracle to the contract the spec states for it. -/

/-- Oracle functions for the external kernels invoked by swmm5.c. -/
structure Kernels where
  projectOpen : EngState → EngState
  projectReadInput : EngState → EngState
  projectValidate : EngState → EngState
  rainOpen : EngState → EngState
  projectInit : EngState → EngState
  outputOpen : EngState → EngState
  runoffOpen : EngState → EngState
  hotstartOpen : EngState → Bool × EngState
  routingOpen : EngState → EngState
  massbalOpen : EngState → EngState
  statsOpen : EngState → EngState
  getRoutingStep : EngState → ℚ
  runoffPhase : ℚ → EngState → EngState
  routingExec : ℚ → EngState → EngState
  linkSetSetting : Int → ℚ → EngState → EngState

/-! ## Unit conversion (swmm5.c) -/

/-- The `Ucf` table of swmm5.c: conversion factors from user units to
internal units, one `(US, SI)` pair per quantity class. -/
def Ucf : List (ℚ × ℚ) :=
  [(43200, 1097280),
   (12, 304.8),
   (1036800, 26334720),
   (1, 0.3048),
   (2.2956e-5, 0.92903e-5),
   (1, 0.02832),
   (1, 1.608),
   (1, 1.8),
   (2.203e-6, 1.0e-6),
   (43560, 3048)]

/-- The `Qcf` table of swmm5.c: flow conversion factors to cfs, indexed by
the flow-units code. -/
def Qcf : List ℚ := [1, 448.831, 0.64632, 0.02832, 28.317, 2.4466]

/-- `UCF` (swmm5.c): the conversion factor for quantity class `u`, read
from `Ucf` by unit system for scalar quantities and from `Qcf` by flow
units for flows. -/
def UCF (s : EngState) (u : Int) : ℚ :=
  if u < FLOW then
    let p := listGetD Ucf u (1, 1)
    if s.unitSystem = US then p.1 else p.2
  else listGetD Qcf s.flowUnits 1

/-- `getDateTime` (swmm5.c): calendar date for elapsed milliseconds;
`datetime_addSeconds` is modelled from the spec as pure decimal-day
arithmetic (datetime.c is not under src/). -/
def getDateTime (s : EngState) (elapsedMsec : ℚ) : ℚ :=
  s.startDateTime + ((elapsedMsec + 1) / 1000) / SECperDAY

/-! ## Property setters (swmm5.c) -/

/-- Replace gage `i` with the result of `f` on it. -/
def updGage (s : EngState) (i : Int) (f : GageState → GageState) : EngState :=
  { s with gages := listSet s.gages i (f (listGetD s.gages i default)) }

/-- Replace subcatchment `i` with the result of `f` on it. -/
def updSubcatch (s : EngState) (i : Int) (f : SubcatchState → SubcatchState) : EngState :=
  { s with subcatchs := listSet s.subcatchs i (f (listGetD s.subcatchs i default)) }

/-- Replace node `i` with the result of `f` on it. -/
def updNode (s : EngState) (i : Int) (f : NodeState → NodeState) : EngState :=
  { s with nodes := listSet s.nodes i (f (listGetD s.nodes i default)) }

/-- Replace outfall `i` with the result of `f` on it. -/
def updOutfall (s : EngState) (i : Int) (f : OutfallState → OutfallState) : EngState :=
  { s with outfalls := listSet s.outfalls i (f (listGetD s.outfalls i default)) }

/-- Replace link `i` with the result of `f` on it. -/
def updLink (s : EngState) (i : Int) (f : LinkState → LinkState) : EngState :=
  { s with links := listSet s.links i (f (listGetD s.links i default)) }

/-- `setGageValue` (swmm5.c). -/
def setGageValue (s : EngState) (property index subIndex : Int) (value : ℚ) :
    Int × EngState :=
  if index < 0 ∨ index ≥ s.nGage then (ERR_API_OBJECT_INDEX, s)
  else if property = swmm_GAGE_RAINFALL then
    if value ≥ 0 then (0, updGage s index fun g => { g with apiRainfall := value })
    else (ERR_API_PROPERTY_VALUE, s)
  else (ERR_API_PROPERTY_TYPE, s)

/-- `setSubcatchValue` (swmm5.c): runtime-writable properties while the
simulation is started, the full set before it starts. -/
def setSubcatchValue (s : EngState) (property index subIndex : Int) (value : ℚ) :
    Int × EngState :=
  if s.isOpen = false then (ERR_API_NOT_OPEN, s)
  else if index < 0 ∨ index ≥ s.nSubcatch then (ERR_API_OBJECT_INDEX, s)
  else if s.isStarted = true then
    if property = swmm_SUBCATCH_API_RAINFALL then
      if value ≥ 0 then
        (0, updSubcatch s index fun c => { c with apiRainfall := value / UCF s RAINFALL })
      else (ERR_API_PROPERTY_VALUE, s)
    else if property = swmm_SUBCATCH_API_SNOWFALL then
      if value ≥ 0 then
        (0, updSubcatch s index fun c => { c with apiSnowfall := value / UCF s RAINFALL })
      else (ERR_API_PROPERTY_VALUE, s)
    else if property = swmm_SUBCATCH_EXTERNAL_POLLUTANT_BUILDUP then
      (0, updSubcatch s index fun c =>
        { c with apiExtBuildup := listSet c.apiExtBuildup subIndex value })
    else (ERR_API_IS_RUNNING, s)
  else
    if property = swmm_SUBCATCH_AREA then
      if value ≥ 0 then
        (0, updSubcatch s index fun c => { c with area := value / UCF s LANDAREA })
      else (ERR_API_PROPERTY_VALUE, s)
    else if property = swmm_SUBCATCH_WIDTH then
      if value ≥ 0 then
        (0, updSubcatch s index fun c => { c with width := value / UCF s LENGTH })
      else (ERR_API_PROPERTY_VALUE, s)
    else if property = swmm_SUBCATCH_SLOPE then
      if value ≥ 0 then
        (0, updSubcatch s index fun c => { c with slope := value })
      else (ERR_API_PROPERTY_VALUE, s)
    else if property = swmm_SUBCATCH_CURB_LENGTH then
      if value ≥ 0 then
        (0, updSubcatch s index fun c => { c with curbLength := value / UCF s LENGTH })
      else (ERR_API_PROPERTY_VALUE, s)
    else if property = swmm_SUBCATCH_API_RAINFALL then
      if value ≥ 0 then
        (0, updSubcatch s index fun c => { c with apiRainfall := value / UCF s RAINFALL })
      else (ERR_API_PROPERTY_VALUE, s)
    else if property = swmm_SUBCATCH_API_SNOWFALL then
      if value ≥ 0 then
        (0, updSubcatch s index fun c => { c with apiSnowfall := value / UCF s RAINFALL })
      else (ERR_API_PROPERTY_VALUE, s)
    else if property = swmm_SUBCATCH_RPTFLAG then
      if value ≥ 0 then
        (0, updSubcatch s index fun c => { c with rptFlag := value > 0 })
      else (ERR_API_PROPERTY_VALUE, s)
    else if property = swmm_SUBCATCH_EXTERNAL_POLLUTANT_BUILDUP then
      (0, updSubcatch s index fun c =>
        { c with apiExtBuildup := listSet c.apiExtBuildup subIndex value })
    else (ERR_API_PROPERTY_TYPE, s)

/-- `setNodeValue` (swmm5.c). -/
def setNodeValue (s : EngState) (property index subIndex : Int) (value : ℚ) :
    Int × EngState :=
  if s.isOpen = false then (ERR_API_NOT_OPEN, s)
  else if index < 0 ∨ index ≥ s.nNode then (ERR_API_OBJECT_INDEX, s)
  else if s.isStarted = true then
    if property = swmm_NODE_LATFLOW then
      (0, updNode s index fun n => { n with apiExtInflow := value / UCF s FLOW })
    else if property = swmm_NODE_HEAD then
      let node := listGetD s.nodes index default
      if node.typ ≠ OUTFALL then (ERR_API_OBJECT_TYPE, s)
      else
        (0, updOutfall s node.subIndex fun o =>
          { o with fixedStage := value / UCF s LENGTH, typ := FIXED_OUTFALL })
    else if property = swmm_NODE_POLLUTANT_LATMASS_FLUX then
      (0, updNode s index fun n =>
        { n with apiExtQualMassFlux := listSet n.apiExtQualMassFlux subIndex value })
    else (ERR_API_IS_RUNNING, s)
  else
    if property = swmm_NODE_ELEV then
      (0, updNode s index fun n => { n with invertElev := value / UCF s LENGTH })
    else if property = swmm_NODE_MAXDEPTH then
      if value ≥ 0 then
        (0, updNode s index fun n => { n with fullDepth := value / UCF s LENGTH })
      else (ERR_API_PROPERTY_VALUE, s)
    else if property = swmm_NODE_SURCHARGE_DEPTH then
      if value ≥ 0 then
        (0, updNode s index fun n => { n with surDepth := value / UCF s LENGTH })
      else (ERR_API_PROPERTY_VALUE, s)
    else if property = swmm_NODE_PONDED_AREA then
      if value ≥ 0 then
        (0, updNode s index fun n => { n with pondedArea := value / UCF s LANDAREA })
      else (ERR_API_PROPERTY_VALUE, s)
    else if property = swmm_NODE_INITIAL_DEPTH then
      if value ≥ 0 then
        (0, updNode s index fun n => { n with initDepth := value / UCF s LENGTH })
      else (ERR_API_PROPERTY_VALUE, s)
    else if property = swmm_NODE_LATFLOW then
      (0, updNode s index fun n => { n with apiExtInflow := value / UCF s FLOW })
    else if property = swmm_NODE_HEAD then
      let node := listGetD s.nodes index default
      if node.typ ≠ OUTFALL then (ERR_API_OBJECT_TYPE, s)
      else
        (0, updOutfall s node.subIndex fun o =>
          { o with fixedStage := value / UCF s LENGTH, typ := FIXED_OUTFALL })
    else if property = swmm_NODE_RPTFLAG then
      (0, updNode s index fun n => { n with rptFlag := value > 0 })
    else if property = swmm_NODE_POLLUTANT_LATMASS_FLUX then
      (0, updNode s index fun n =>
        { n with apiExtQualMassFlux := listSet n.apiExtQualMassFlux subIndex value })
    else (ERR_API_PROPERTY_TYPE, s)

/-- `setLinkSetting` (swmm5.c): validates the link, clamps non-pump
settings to 1, stores the target setting, stamps `timeLastSet` when the
new target times the current setting is zero, lets the link kernel apply
the change, and appends a control action labelled "SWMM API" to the text
report when controls reporting is on. -/
def setLinkSetting (k : Kernels) (s : EngState) (index : Int) (value : ℚ) :
    Int × EngState :=
  if index < 0 ∨ index ≥ s.nLink then (ERR_API_OBJECT_INDEX, s)
  else
    let link := listGetD s.links index default
    if value < 0 ∨ link.typ = CONDUIT then (ERR_API_OBJECT_INDEX, s)
    else
      let value := if link.typ ≠ PUMP ∧ value > 1 then 1 else value
      if link.targetSetting = value then (0, s)
      else
        let s1 := updLink s index fun l => { l with targetSetting := value }
        let s2 :=
          if value * link.setting = 0 then
            updLink s1 index fun l => { l with timeLastSet := s.startDateTime + s.elapsedTime }
          else s1
        let s3 := k.linkSetSetting index 0 s2
        let s4 :=
          if s3.rptControls then
            { s3 with reportLog := s3.reportLog ++
                [{ aDate := getDateTime s3 s3.newRoutingTime
                   linkID := (listGetD s3.links index default).id
                   value := value
                   label := "SWMM API" }] }
          else s3
        (0, s4)

/-- `setLinkValue` (swmm5.c). -/
def setLinkValue (k : Kernels) (s : EngState) (property index subIndex : Int) (value : ℚ) :
    Int × EngState :=
  if s.isOpen = false then (ERR_API_NOT_OPEN, s)
  else if index < 0 ∨ index ≥ s.nLink then (ERR_API_OBJECT_INDEX, s)
  else if s.isStarted = true then
    if property = swmm_LINK_SETTING then setLinkSetting k s index value
    else if property = swmm_LINK_FLOW_LIMIT then
      (0, updLink s index fun l => { l with qLimit := value / UCF s FLOW })
    else if property = swmm_LINK_SEEPAGE_RATE then
      if value ≥ 0 then
        (0, updLink s index fun l => { l with seepRate := value / UCF s RAINFALL })
      else (ERR_API_PROPERTY_VALUE, s)
    else if property = swmm_LINK_POLLUTANT_LATMASS_FLUX then
      (0, updLink s index fun l =>
        { l with apiExtQualMassFlux := listSet l.apiExtQualMassFlux subIndex value })
    else (ERR_API_IS_RUNNING, s)
  else
    if property = swmm_LINK_SETTING then setLinkSetting k s index value
    else if property = swmm_LINK_OFFSET1 then
      (0, updLink s index fun l => { l with offset1 := value / UCF s LENGTH })
    else if property = swmm_LINK_OFFSET2 then
      (0, updLink s index fun l => { l with offset2 := value / UCF s LENGTH })
    else if property = swmm_LINK_INITIAL_FLOW then
      (0, updLink s index fun l => { l with q0 := value / UCF s FLOW })
    else if property = swmm_LINK_FLOW_LIMIT then
      (0, updLink s index fun l => { l with qLimit := value / UCF s FLOW })
    else if property = swmm_LINK_INLET_LOSS then
      (0, updLink s index fun l => { l with cLossInlet := value })
    else if property = swmm_LINK_OUTLET_LOSS then
      (0, updLink s index fun l => { l with cLossOutlet := value })
    else if property = swmm_LINK_AVERAGE_LOSS then
      (0, updLink s index fun l => { l with cLossAvg := value })
    else if property = swmm_LINK_SEEPAGE_RATE then
      if value ≥ 0 then
        (0, updLink s index fun l => { l with seepRate := value / UCF s RAINFALL })
      else (ERR_API_PROPERTY_VALUE, s)
    else if property = swmm_LINK_HAS_FLAPGATE then
      (0, updLink s index fun l => { l with hasFlapGate := value > 0 })
    else if property = swmm_LINK_POLLUTANT_LATMASS_FLUX then
      (0, updLink s index fun l =>
        { l with apiExtQualMassFlux := listSet l.apiExtQualMassFlux subIndex value })
    else (ERR_API_PROPERTY_TYPE, s)

/-- `setRoutingStep` (swmm5.c): rejects non-positive steps, raises the
value to `MinRouteStep` when it falls below it, zeroes the Courant factor
and stores the step. -/
def setRoutingStep (s : EngState) (value : ℚ) : Int × EngState :=
  if value ≤ 0 then (ERR_API_PROPERTY_VALUE, s)
  else
    let value := if value ≤ s.minRouteStep then s.minRouteStep else value
    (0, { s with courantFactor := 0, routeStep := value })

/-- Spec-modelled `datetime_encodeDate` of the decoded date of `v`: the
whole-day part of a decimal-day value (spec 4.7; datetime.c is not under
src/). -/
def dateOfDateTime (v : ℚ) : ℚ := ⌊v⌋

/-- Spec-modelled `datetime_encodeTime` of the decoded time of `v`: the
time-of-day fraction of a decimal-day value (spec 4.7). -/
def timeOfDateTime (v : ℚ) : ℚ := v - ⌊v⌋

/-- `setSystemValue` (swmm5.c): system properties writable only before the
simulation starts. -/
def setSystemValue (s : EngState) (property : Int) (value : ℚ) : Int × EngState :=
  if s.isStarted then (ERR_API_NOT_ENDED, s)
  else if property = swmm_STARTDATE then
    let sd := dateOfDateTime value
    let st := timeOfDateTime value
    (0, { s with
          startDateTime := value
          startDate := sd
          startTime := st
          totalDuration :=
            ⌊(s.endDate - sd) * SECperDAY + (s.endTime - st) * SECperDAY⌋ * 1000 })
  else if property = swmm_ROUTESTEP then setRoutingStep s value
  else if property = swmm_REPORTSTEP then
    if value > 0 then (0, { s with reportStep := ⌊value⌋ }) else (ERR_API_PROPERTY_VALUE, s)
  else if property = swmm_NOREPORT then (0, { s with rptDisabled := value > 0 })
  else if property = swmm_ENDDATE then
    let ed := dateOfDateTime value
    let et := timeOfDateTime value
    (0, { s with
          endDateTime := value
          endDate := ed
          endTime := et
          totalDuration :=
            ⌊(ed - s.startDate) * SECperDAY + (et - s.startTime) * SECperDAY⌋ * 1000 })
  else if property = swmm_REPORTSTART then
    (0, { s with
          reportStart := value
          reportStartDate := dateOfDateTime value
          reportStartTime := timeOfDateTime value })
  else if property = swmm_NUMTHREADS then
    -- omp_get_max_threads() is 1 in the no-OpenMP build of swmm5.c
    (0, { s with numThreads := max 1 (min ⌊value⌋ 1) })
  else if property = swmm_SURCHARGEMETHOD then
    if value ≥ (EXTRAN : ℚ) ∧ value ≤ (SLOT : ℚ) then
      (0, { s with surchargeMethod := ⌊value⌋ })
    else (ERR_API_PROPERTY_VALUE, s)
  else if property = swmm_ALLOWPONDING then (0, { s with allowPonding := value > 0 })
  else if property = swmm_INERTIADAMPING then
    if value ≥ (NO_DAMPING : ℚ) ∧ value ≤ (FULL_DAMPING : ℚ) then
      (0, { s with inertDamping := ⌊value⌋ })
    else (ERR_API_PROPERTY_VALUE, s)
  else if property = swmm_NORMALFLOWLTD then
    if value ≥ (SLOPE_LIMITED : ℚ) ∧ value ≤ (NEITHER : ℚ) then
      (0, { s with normalFlowLtd := ⌊value⌋ })
    else (ERR_API_PROPERTY_VALUE, s)
  else if property = swmm_SKIPSTEADYSTATE then (0, { s with skipSteadyState := value > 0 })
  else if property = swmm_IGNORERAINFALL then (0, { s with ignoreRainfall := value > 0 })
  else if property = swmm_IGNORERDII then (0, { s with ignoreRDII := value > 0 })
  else if property = swmm_IGNORESNOWMELT then (0, { s with ignoreSnowmelt := value > 0 })
  else if property = swmm_IGNOREGROUNDWATER then (0, { s with ignoreGwater := value > 0 })
  else if property = swmm_IGNOREROUTING then (0, { s with ignoreRouting := value > 0 })
  else if property = swmm_IGNOREQUALITY then (0, { s with ignoreQuality := value > 0 })
  else if property = swmm_RULESTEP then
    if value > 0 then (0, { s with ruleStep := ⌊value⌋ }) else (ERR_API_PROPERTY_VALUE, s)
  else if property = swmm_SWEEPSTART then
    if value ≥ 0 ∧ value ≤ 365 then (0, { s with sweepStart := ⌊value⌋ })
    else (ERR_API_PROPERTY_VALUE, s)
  else if property = swmm_SWEEPEND then
    if value ≥ 0 ∧ value ≤ 365 then (0, { s with sweepEnd := ⌊value⌋ })
    else (ERR_API_PROPERTY_VALUE, s)
  else if property = swmm_MAXTRIALS then
    if value ≥ 2 then (0, { s with maxTrials := ⌊value⌋ }) else (ERR_API_PROPERTY_VALUE, s)
  else if property = swmm_MINROUTESTEP then
    if value > 0 then (0, { s with minRouteStep := value }) else (ERR_API_PROPERTY_VALUE, s)
  else if property = swmm_LENGTHENINGSTEP then
    if value > 0 then (0, { s with lengtheningStep := value })
    else (ERR_API_PROPERTY_VALUE, s)
  else if property = swmm_STARTDRYDAYS then
    if value ≥ 0 then (0, { s with startDryDays := value }) else (ERR_API_PROPERTY_VALUE, s)
  else if property = swmm_COURANTFACTOR then
    if value > 0 ∧ value ≤ 2 then (0, { s with courantFactor := value })
    else (ERR_API_PROPERTY_VALUE, s)
  else if property = swmm_MINSURFAREA then
    if value ≥ 0 then (0, { s with minSurfArea := value / UCF s LENGTH / UCF s LENGTH })
    else (ERR_API_PROPERTY_VALUE, s)
  else if property = swmm_MINSLOPE then
    if value ≥ 0 ∧ value < 100 then (0, { s with minSlope := value })
    else (ERR_API_PROPERTY_VALUE, s)
  else (ERR_API_PROPERTY_TYPE, s)

/-- `swmm_setValueExpanded` (swmm5.c).  As in the source, the dispatch
switch reads the `index` argument, not `objType`. -/
def swmm_setValueExpanded (k : Kernels) (s : EngState)
    (objType property index subIndex : Int) (value : ℚ) : Int × EngState :=
  if s.isOpen = false then (ERR_API_NOT_OPEN, s)
  else if index = swmm_SYSTEM then setSystemValue s property value
  else if index = swmm_GAGE then setGageValue s property index subIndex value
  else if index = swmm_SUBCATCH then setSubcatchValue s property index subIndex value
  else if index = swmm_NODE then setNodeValue s property index subIndex value
  else if index = swmm_LINK then setLinkValue k s property index subIndex value
  else (ERR_API_OBJECT_TYPE, s)

/-- Render a C int/flag stored in the state as the double that
`getSystemValue` returns for it. -/
def boolToQ (b : Bool) : ℚ := if b then 1 else 0

/-- `getMaxRouteStep` (swmm5.c): the routing kernel's adaptive step with
the Courant factor forced to 1 and `MinRouteStep` as the nominal step;
the nominal `RouteStep` outside dynamic-wave routing or before start.
The temporary mutation and restoration of `CourantFactor` in the source is
rendered by passing the adjusted state to the (pure) kernel oracle. -/
def getMaxRouteStep (k : Kernels) (s : EngState) : ℚ :=
  if ¬s.isStarted ∨ s.routeModel ≠ DW then s.routeStep
  else k.getRoutingStep { s with courantFactor := 1, routeStep := s.minRouteStep }

/-- `getSystemValue` (swmm5.c). -/
def getSystemValue (k : Kernels) (s : EngState) (property : Int) : ℚ :=
  if property = swmm_STARTDATE then s.startDateTime
  else if property = swmm_CURRENTDATE then s.startDateTime + s.elapsedTime
  else if property = swmm_ELAPSEDTIME then s.elapsedTime
  else if property = swmm_ROUTESTEP then s.routeStep
  else if property = swmm_MAXROUTESTEP then getMaxRouteStep k s
  else if property = swmm_REPORTSTEP then (s.reportStep : ℚ)
  else if property = swmm_TOTALSTEPS then (s.nperiods : ℚ)
  else if property = swmm_NOREPORT then boolToQ s.rptDisabled
  else if property = swmm_FLOWUNITS then (s.flowUnits : ℚ)
  else if property = swmm_ENDDATE then s.endDateTime
  else if property = swmm_REPORTSTART then s.reportStart
  else if property = swmm_UNITSYSTEM then (s.unitSystem : ℚ)
  else if property = swmm_SURCHARGEMETHOD then (s.surchargeMethod : ℚ)
  else if property = swmm_ALLOWPONDING then boolToQ s.allowPonding
  else if property = swmm_INERTIADAMPING then (s.inertDamping : ℚ)
  else if property = swmm_NORMALFLOWLTD then (s.normalFlowLtd : ℚ)
  else if property = swmm_SKIPSTEADYSTATE then boolToQ s.skipSteadyState
  else if property = swmm_IGNORERAINFALL then boolToQ s.ignoreRainfall
  else if property = swmm_IGNORERDII then boolToQ s.ignoreRDII
  else if property = swmm_IGNORESNOWMELT then boolToQ s.ignoreSnowmelt
  else if property = swmm_IGNOREGROUNDWATER then boolToQ s.ignoreGwater
  else if property = swmm_IGNOREROUTING then boolToQ s.ignoreRouting
  else if property = swmm_IGNOREQUALITY then boolToQ s.ignoreQuality
  else if property = swmm_ERROR_CODE then (s.errorCode : ℚ)
  else if property = swmm_RULESTEP then (s.ruleStep : ℚ)
  else if property = swmm_SWEEPSTART then (s.sweepStart : ℚ)
  else if property = swmm_SWEEPEND then (s.sweepEnd : ℚ)
  else if property = swmm_MAXTRIALS then (s.maxTrials : ℚ)
  else if property = swmm_NUMTHREADS then (s.numThreads : ℚ)
  else if property = swmm_MINROUTESTEP then s.minRouteStep
  else if property = swmm_LENGTHENINGSTEP then s.lengtheningStep
  else if property = swmm_STARTDRYDAYS then s.startDryDays
  else if property = swmm_COURANTFACTOR then s.courantFactor
  else if property = swmm_MINSURFAREA then s.minSurfArea * UCF s LENGTH * UCF s LENGTH
  else if property = swmm_MINSLOPE then s.minSlope
  else if property = swmm_RUNOFFERROR then s.runoffError
  else if property = swmm_FLOWERROR then s.flowError
  else if property = swmm_HEADTOL then s.headTol * UCF s LENGTH
  else if property = swmm_SYSFLOWTOL then s.sysFlowTol
  else if property = swmm_LATFLOWTOL then s.latFlowTol
  else (ERR_API_PROPERTY_TYPE : ℚ)

/-! ## Lifecycle controller (swmm5.c) -/

/-- `execRouting` (swmm5.c): one routing step.  Chooses the step (the
wet/report step when routing is disabled, else the kernel's adaptive
step), rejects a non-positive step with `ERR_TIMESTEP`, clamps the step so
the routing duration is not exceeded (never below 0.001 s), drives runoff
up to the next routing instant (the runoff loop of the source collapses
into the `runoffPhase` oracle; the climate-only branch has no effect on
the modelled state), and advances routing. -/
def execRouting (k : Kernels) (s : EngState) : EngState :=
  let s := { s with totalStepCount := s.totalStepCount + 1 }
  let routingStep : ℚ :=
    if ¬s.doRouting then min (s.wetStep : ℚ) (s.reportStep : ℚ)
    else k.getRoutingStep s
  if routingStep ≤ 0 then { s with errorCode := ERR_TIMESTEP }
  else
    let nextRoutingTime := s.newRoutingTime + 1000 * routingStep
    let p :=
      if nextRoutingTime > s.routingDuration then
        (max ((s.routingDuration - s.newRoutingTime) / 1000) (1 / 1000), s.routingDuration)
      else (routingStep, nextRoutingTime)
    let routingStep := p.1
    let nextRoutingTime := p.2
    let s := if s.doRunoff then k.runoffPhase nextRoutingTime s else s
    if s.errorCode ≠ 0 then s
    else if s.doRouting then k.routingExec routingStep s
    else { s with newRoutingTime := nextRoutingTime }

/-- `saveResults` (swmm5.c): emits a reporting period once the routing time
reaches the report deadline and advances the deadline.  The binary-file
writes (`output_saveResults`, `output_updateAvgResults`) act on the output
file, outside the modelled state. -/
def saveResults (s : EngState) : EngState :=
  if s.newRoutingTime ≥ s.reportTime then
    { s with reportTime := s.reportTime + 1000 * (s.reportStep : ℚ) }
  else s

/-- `swmm_step` (swmm5.c).  Returns the new state, the returned error code
and the value stored through the `elapsedTime` out-parameter.
`hotstart_save` acts on hot-start files, outside the modelled state. -/
def swmm_step (k : Kernels) (s : EngState) : EngState × Int × ℚ :=
  if s.errorCode ≠ 0 then (s, s.errorCode, 0)
  else if ¬s.isOpen then
    ({ s with errorCode := ERR_API_NOT_OPEN }, ERR_API_NOT_OPEN, 0)
  else if ¬s.isStarted then
    ({ s with errorCode := ERR_API_NOT_STARTED }, ERR_API_NOT_STARTED, 0)
  else
    let s := if s.newRoutingTime < s.routingDuration then execRouting k s else s
    let s := if s.saveResultsFlag then saveResults s else s
    let s :=
      if s.newRoutingTime < s.routingDuration then
        { s with elapsedTime := s.newRoutingTime / MSECperDAY }
      else { s with elapsedTime := 0 }
    (s, s.errorCode, s.elapsedTime)

/-- The do-while loop of `swmm_stride`, with fuel standing in for the
unbounded C loop; the `Bool` is true when the loop exited through its own
condition within the fuel. -/
def strideLoop (k : Kernels) : ℕ → EngState → EngState × ℚ × Bool
  | 0, s => (s, 0, false)
  | fuel + 1, s =>
    let r := swmm_step k s
    if r.2.2 > 0 ∧ r.1.errorCode = 0 then strideLoop k fuel r.1
    else (r.1, r.2.2, true)

/-- `swmm_stride` (swmm5.c): caps the routing duration at
`NewRoutingTime + 1000 * strideStep` (never beyond the total duration) and
the route step at `strideStep`, steps until the capped horizon, then
restores the route step and the routing duration and recomputes the
elapsed time against the full total duration. -/
def swmm_stride (k : Kernels) (strideStep : Int) (fuel : ℕ) (s : EngState) :
    EngState × Int × ℚ × Bool :=
  let realRouteStep := s.routeStep
  if s.errorCode ≠ 0 then (s, s.errorCode, 0, true)
  else if ¬s.isOpen then
    ({ s with errorCode := ERR_API_NOT_OPEN }, ERR_API_NOT_OPEN, 0, true)
  else if ¬s.isStarted then
    ({ s with errorCode := ERR_API_NOT_STARTED }, ERR_API_NOT_STARTED, 0, true)
  else
    let s := { s with
      routingDuration := min s.totalDuration (s.newRoutingTime + 1000 * (strideStep : ℚ)) }
    let s := if (strideStep : ℚ) < s.routeStep then { s with routeStep := (strideStep : ℚ) } else s
    let r := strideLoop k fuel s
    let s : EngState :=
      { r.1 with routeStep := realRouteStep, routingDuration := r.1.totalDuration }
    let s :=
      if s.newRoutingTime < s.totalDuration then
        { s with elapsedTime := s.newRoutingTime / MSECperDAY }
      else { s with elapsedTime := 0 }
    (s, s.errorCode, s.elapsedTime, r.2.2)

/-- `swmm_open` (swmm5.c): resets the error state and flags, opens the
project through the external project manager, marks the project open and
reads and validates the input.  Console/report writes have no modelled
effect. -/
def swmm_open (k : Kernels) (s : EngState) : EngState × Int :=
  let s := { s with errorCode := 0, isOpen := false, isStarted := false }
  let s := k.projectOpen s
  if s.errorCode ≠ 0 then (s, s.errorCode)
  else
    let s := { s with isOpen := true }
    let s := k.projectReadInput s
    if s.errorCode ≠ 0 then (s, s.errorCode)
    else
      let s := k.projectValidate s
      (s, s.errorCode)

/-- `swmm_start` (swmm5.c): validates the lifecycle state, zeroes the
clock cursors and counters, sets the routing duration to the total
duration, marks the simulation started and opens the kernels in the fixed
order of the source (rainfall, project state, output file, runoff,
hot-start, routing, mass balance, statistics); a failed hot-start open
returns early. -/
def swmm_start (k : Kernels) (saveResults : Bool) (s : EngState) : EngState × Int :=
  if s.errorCode ≠ 0 then (s, s.errorCode)
  else if ¬s.isOpen then ({ s with errorCode := ERR_API_NOT_OPEN }, ERR_API_NOT_OPEN)
  else if s.isStarted then ({ s with errorCode := ERR_API_NOT_ENDED }, ERR_API_NOT_ENDED)
  else
    let s := { s with saveResultsFlag := saveResults }
    let s := { s with
      elapsedTime := 0
      routingDuration := s.totalDuration
      newRunoffTime := 0
      newRoutingTime := 0
      reportTime := 1000 * (s.reportStep : ℚ)
      totalStepCount := 0
      reportStepCount := 0
      nonConvergeCount := 0
      isStarted := true
      runoffError := 0
      flowError := 0
      qualError := 0 }
    let s := if ¬s.ignoreRainfall then k.rainOpen s else s
    if s.errorCode ≠ 0 then (s, s.errorCode)
    else
      let s := k.projectInit s
      let s := { s with
        doRunoff := s.nSubcatch > 0
        doRouting := s.nNode > 0 ∧ ¬s.ignoreRouting }
      let s := k.outputOpen s
      let s := if s.doRunoff then k.runoffOpen s else s
      let r := k.hotstartOpen s
      if ¬r.1 then (r.2, r.2.errorCode)
      else
        let s := r.2
        let s := if s.doRouting then k.routingOpen s else s
        let s := k.massbalOpen s
        let s := k.statsOpen s
        (s, s.errorCode)

/-- `swmm_end` (swmm5.c): requires an open project; when started, closes
the computing kernels (file and report effects lie outside the modelled
state) and clears the started flag. -/
def swmm_end (s : EngState) : EngState × Int :=
  if ¬s.isOpen then ({ s with errorCode := ERR_API_NOT_OPEN }, ERR_API_NOT_OPEN)
  else if s.isStarted then ({ s with isStarted := false }, s.errorCode)
  else (s, s.errorCode)

/-- `swmm_report` (swmm5.c): writes the text report (outside the modelled
state) unless an error is pending; returns the sticky error code. -/
def swmm_report (s : EngState) : EngState × Int :=
  (s, s.errorCode)

/-- Modelled from the spec: `project_close` "releases all project
resources ... resets the singleton" (spec 4.1; project.c is not under
src/). -/
def projectCloseModel (s : EngState) : EngState :=
  { s with
    nGage := 0
    nSubcatch := 0
    nNode := 0
    nLink := 0
    nPollut := 0
    gages := []
    subcatchs := []
    nodes := []
    outfalls := []
    links := [] }

/-- `swmm_close` (swmm5.c): closes the output file when one is attached
(a file-system effect), closes the project when one is open, closes the
input/report/output file handles, clears both lifecycle flags and always
returns 0 — without validating the current lifecycle state. -/
def swmm_close (s : EngState) : EngState × Int :=
  let s := if s.isOpen then projectCloseModel s else s
  ({ s with isOpen := false, isStarted := false }, 0)

/-- The do-while loop of `swmm_run_with_callback`, accumulating the values
passed to the progress callback; fuel stands in for the unbounded C loop,
and the `Bool` is true when the loop exited through its own condition. -/
def runLoop (k : Kernels) (hasCb : Bool) : ℕ → EngState → List ℚ → EngState × List ℚ × Bool
  | 0, s, acc => (s, acc, false)
  | fuel + 1, s, acc =>
    let r := swmm_step k s
    let acc := if hasCb then acc ++ [r.1.newRoutingTime / r.1.totalDuration] else acc
    if r.2.2 > 0 ∧ r.1.errorCode = 0 then runLoop k hasCb fuel r.1 acc
    else (r.1, acc, true)

/-- The flag initialisation at the top of `swmm_run_with_callback`. -/
def runInit (s : EngState) : EngState :=
  { s with isOpen := false, isStarted := false, saveResultsFlag := true, errorCode := 0 }

/-- `swmm_run_with_callback` (swmm5.c): open, start with results saved,
step until the elapsed time resets to 0 computing
`NewRoutingTime / TotalDuration` for the callback after every step, end,
report when the output went to a scratch file, close; returns the final
sticky error code together with the list of progress values passed to the
callback. -/
def swmm_run_with_callback (k : Kernels) (hasCb : Bool) (fuel : ℕ) (s : EngState) :
    EngState × Int × List ℚ :=
  let s := runInit s
  let r0 := swmm_open k s
  let p :=
    if r0.1.errorCode = 0 then
      let r1 := swmm_start k true r0.1
      let p2 :=
        if r1.1.errorCode = 0 then runLoop k hasCb fuel r1.1 []
        else (r1.1, [], true)
      let r2 := swmm_end p2.1
      (r2.1, p2.2.1)
    else (r0.1, [])
  let s := if p.1.errorCode = 0 ∧ p.1.foutScratch then (swmm_report p.1).1 else p.1
  let r3 := swmm_close s
  (r3.1, r3.1.errorCode, p.2)

/-! ## Kernel contracts

Each oracle is pinned to the contract the spec gives the corresponding
kernel: what part of the engine state it may touch, and for the stepping
kernels how they advance their cursors (spec 4.1, routing-loop steps 4 and
5; the kernels themselves are not under src/). -/

/-- A link with its `setting` field blanked; used to state that the link
kernel's `link_setSetting` touches nothing but the settings. -/
def linkShape (l : LinkState) : LinkState := { l with setting := 0 }

/-- Frame of the kernel-initialisation calls made by `swmm_start`: they
may set the sticky error code, (re)initialise project object state and
reset the period counter, and touch nothing else of the modelled state —
in particular none of the clock fields the lifecycle controller has just
initialised. -/
def InitFrame (f : EngState → EngState) : Prop :=
  ∀ s, ∃ e g sc n o l np, f s =
    { s with
      errorCode := e
      gages := g
      subcatchs := sc
      nodes := n
      outfalls := o
      links := l
      nperiods := np }

/-- The contracts of the external kernels (spec 4.1): runoff is driven
until the next routing instant unless it errors and touches only its own
cursor and the runoff state; routing advances `NewRoutingTime` by exactly
`1000 * routingStep` on success, never beyond it and never backwards, and
touches only its cursor and the hydraulic state; `link_setSetting` applies
pending settings and touches nothing else. -/
structure KernelsOK (k : Kernels) : Prop where
  rainOpen_frame : InitFrame k.rainOpen
  projectInit_frame : InitFrame k.projectInit
  outputOpen_frame : InitFrame k.outputOpen
  runoffOpen_frame : InitFrame k.runoffOpen
  hotstartOpen_frame : InitFrame fun s => (k.hotstartOpen s).2
  routingOpen_frame : InitFrame k.routingOpen
  massbalOpen_frame : InitFrame k.massbalOpen
  statsOpen_frame : InitFrame k.statsOpen
  runoff_frame : ∀ nt s, ∃ rt e g sc, k.runoffPhase nt s =
    { s with newRunoffTime := rt, errorCode := e, gages := g, subcatchs := sc }
  runoff_reached : ∀ nt s, (k.runoffPhase nt s).errorCode = 0 →
    nt ≤ (k.runoffPhase nt s).newRunoffTime
  routing_frame : ∀ g s, ∃ rt e n l, k.routingExec g s =
    { s with newRoutingTime := rt, errorCode := e, nodes := n, links := l }
  routing_mono : ∀ g s, 0 < g →
    s.newRoutingTime ≤ (k.routingExec g s).newRoutingTime ∧
    (k.routingExec g s).newRoutingTime ≤ s.newRoutingTime + 1000 * g
  routing_adv : ∀ g s, 0 < g → (k.routingExec g s).errorCode = 0 →
    (k.routingExec g s).newRoutingTime = s.newRoutingTime + 1000 * g
  linkSet_frame : ∀ i v s, ∃ ls, k.linkSetSetting i v s = { s with links := ls } ∧
    ls.map linkShape = s.links.map linkShape

/-! ## Concrete kernels and states for witnesses -/

/-- Well-behaved witness kernels: the initialisation calls succeed without
touching the state, runoff lands exactly on the next routing instant, the
adaptive step is the nominal route step, and routing advances by exactly
the step it is given. -/
def kW : Kernels :=
  { projectOpen := fun s => s
    projectReadInput := fun s => s
    projectValidate := fun s => s
    rainOpen := fun s => s
    projectInit := fun s => s
    outputOpen := fun s => s
    runoffOpen := fun s => s
    hotstartOpen := fun s => (true, s)
    routingOpen := fun s => s
    massbalOpen := fun s => s
    statsOpen := fun s => s
    getRoutingStep := fun s => s.routeStep
    runoffPhase := fun nt s => { s with newRunoffTime := max s.newRunoffTime nt }
    routingExec := fun g s => { s with newRoutingTime := s.newRoutingTime + 1000 * g }
    linkSetSetting := fun i v s => s }

theorem initFrame_id : InitFrame fun s => s := by
  intro s
  exact ⟨s.errorCode, s.gages, s.subcatchs, s.nodes, s.outfalls, s.links, s.nperiods, rfl⟩

theorem kernelsOK_kW : KernelsOK kW := by
  refine ⟨initFrame_id, initFrame_id, initFrame_id, initFrame_id, initFrame_id,
    initFrame_id, initFrame_id, initFrame_id, ?_, ?_, ?_, ?_, ?_, ?_⟩
  · intro nt s
    exact ⟨max s.newRunoffTime nt, s.errorCode, s.gages, s.subcatchs, rfl⟩
  · intro nt s _
    exact le_max_right _ _
  · intro g s
    exact ⟨s.newRoutingTime + 1000 * g, s.errorCode, s.nodes, s.links, rfl⟩
  · intro g s hg
    constructor
    · simp [kW]
      positivity
    · simp [kW]
  · intro g s _ _
    simp [kW]
  · intro i v s
    exact ⟨s.links, rfl, rfl⟩

/-- A fully populated quiescent engine state from which the concrete
witness states are built. -/
def baseEng : EngState :=
  { errorCode := 0
    isOpen := false
    isStarted := false
    saveResultsFlag := false
    doRunoff := false
    doRouting := false
    totalDuration := 0
    routingDuration := 0
    newRoutingTime := 0
    newRunoffTime := 0
    reportTime := 0
    reportStep := 600
    wetStep := 300
    routeStep := 30
    minRouteStep := 0.5
    lengtheningStep := 0
    courantFactor := 0.75
    elapsedTime := 0
    startDateTime := 0
    endDateTime := 0
    reportStart := 0
    startDate := 0
    startTime := 0
    endDate := 0
    endTime := 0
    reportStartDate := 0
    reportStartTime := 0
    totalStepCount := 0
    reportStepCount := 0
    nonConvergeCount := 0
    nperiods := 0
    unitSystem := 0
    flowUnits := 0
    routeModel := 2
    surchargeMethod := 0
    inertDamping := 0
    normalFlowLtd := 0
    allowPonding := false
    skipSteadyState := false
    ignoreRainfall := false
    ignoreRDII := false
    ignoreSnowmelt := false
    ignoreGwater := false
    ignoreRouting := false
    ignoreQuality := false
    ruleStep := 0
    sweepStart := 0
    sweepEnd := 0
    maxTrials := 8
    numThreads := 1
    startDryDays := 0
    minSurfArea := 0
    minSlope := 0
    runoffError := 0
    flowError := 0
    qualError := 0
    headTol := 0
    sysFlowTol := 0
    latFlowTol := 0
    rptDisabled := false
    rptControls := false
    rptAverages := false
    rptInput := false
    nGage := 0
    nSubcatch := 0
    nNode := 0
    nLink := 0
    nPollut := 0
    gages := []
    subcatchs := []
    nodes := []
    outfalls := []
    links := []
    finpFile := true
    frptFile := true
    foutFile := true
    foutScratch := false
    reportLog := [] }

/-! ## Lemmas about the routing loop -/

/-- The tail of `execRouting` after the runoff phase: the early error
return, the routing-kernel advance, or the direct cursor update. -/
theorem execTail_shape (k : Kernels) (hk : KernelsOK k) (s2 : EngState) (g' next : ℚ)
    (hg' : 0 < g')
    (hb1 : s2.newRoutingTime + 1000 * g' < s2.routingDuration + 1)
    (hb2 : next ≤ s2.routingDuration) (hb3 : s2.newRoutingTime < next) :
    ∃ rt e nn ll,
      (if s2.errorCode ≠ 0 then s2
       else if s2.doRouting then k.routingExec g' s2
       else { s2 with newRoutingTime := next }) =
        { s2 with newRoutingTime := rt, errorCode := e, nodes := nn, links := ll } ∧
      s2.newRoutingTime ≤ rt ∧ rt < s2.routingDuration + 1 ∧
      (e = 0 → s2.errorCode = 0) ∧
      (e = 0 → s2.newRoutingTime < rt) ∧
      (e = 0 → s2.doRouting = false → rt ≤ s2.routingDuration) := by
  by_cases he : s2.errorCode ≠ 0
  · refine ⟨s2.newRoutingTime, s2.errorCode, s2.nodes, s2.links, by simp [he], le_refl _,
      by linarith, ?_, ?_, ?_⟩ <;> intro h <;> exact absurd h he
  · push_neg at he
    rw [if_neg (by simp [he])]
    by_cases hdo : s2.doRouting
    · obtain ⟨rt3, e3, nn3, ll3, hex⟩ := hk.routing_frame g' s2
      obtain ⟨hmono1, hmono2⟩ := hk.routing_mono g' s2 hg'
      have hadv := hk.routing_adv g' s2 hg'
      rw [hex] at hmono1 hmono2 hadv ⊢
      simp only at hmono1 hmono2 hadv
      refine ⟨rt3, e3, nn3, ll3, if_pos hdo, hmono1, by linarith, fun _ => he, ?_, ?_⟩
      · intro h3
        rw [hadv h3]
        linarith
      · intro _ hdo2
        rw [hdo] at hdo2
        exact absurd hdo2 (by simp)
    · rw [if_neg hdo]
      refine ⟨next, s2.errorCode, s2.nodes, s2.links, rfl, le_of_lt hb3, by linarith,
        fun _ => he, fun _ => hb3, fun _ _ => hb2⟩

/-- `execRouting` on an error-free state short of the horizon: it touches
only the cursors, the error code, the step counter and the kernel-owned
object state; the routing cursor does not move backwards, lands strictly
below `RoutingDuration + 1`, advances strictly on success, and stays at or
below `RoutingDuration` on success when routing is disabled. -/
theorem execRouting_shape (k : Kernels) (hk : KernelsOK k) (s : EngState)
    (herr : s.errorCode = 0) (hlt : s.newRoutingTime < s.routingDuration) :
    ∃ rt ru e gg sc nn ll,
      execRouting k s =
        { s with
          newRoutingTime := rt
          newRunoffTime := ru
          errorCode := e
          gages := gg
          subcatchs := sc
          nodes := nn
          links := ll
          totalStepCount := s.totalStepCount + 1 } ∧
      s.newRoutingTime ≤ rt ∧ rt < s.routingDuration + 1 ∧
      (e = 0 → s.newRoutingTime < rt) ∧
      (e = 0 → s.doRouting = false → rt ≤ s.routingDuration) := by
  simp only [execRouting]
  set s1 : EngState := { s with totalStepCount := s.totalStepCount + 1 } with hs1
  set g : ℚ := if ¬s1.doRouting then min (s1.wetStep : ℚ) (s1.reportStep : ℚ)
    else k.getRoutingStep s1 with hg
  by_cases hg0 : g ≤ 0
  · rw [if_pos hg0]
    refine ⟨s.newRoutingTime, s.newRunoffTime, ERR_TIMESTEP, s.gages, s.subcatchs,
      s.nodes, s.links, rfl, le_refl _, by linarith, ?_, ?_⟩ <;>
      · intro h
        exact absurd h (by norm_num [ERR_TIMESTEP])
  · rw [if_neg hg0]
    push_neg at hg0
    set t := s.newRoutingTime with hts
    set RD := s.routingDuration with hrd
    set p : ℚ × ℚ := if t + 1000 * g > RD then
        ((max ((RD - t) / 1000) (1 / 1000) : ℚ), RD)
      else (g, t + 1000 * g) with hp
    have hp1pos : 0 < p.1 := by
      rw [hp]; split_ifs with h
      · exact lt_of_lt_of_le (by norm_num) (le_max_right _ _)
      · exact hg0
    have hpb : t + 1000 * p.1 < RD + 1 ∧ p.2 ≤ RD ∧ t < p.2 := by
      rw [hp]; split_ifs with h
      · dsimp only
        have h1000 : (1000 : ℚ) * max ((RD - t) / 1000) (1 / 1000) = max (RD - t) 1 := by
          rw [mul_max_of_nonneg _ _ (by norm_num : (0:ℚ) ≤ 1000)]
          congr 1
          · ring
          · norm_num
        rw [h1000]
        refine ⟨?_, le_refl _, hlt⟩
        rcases max_cases (RD - t) 1 with ⟨hm, _⟩ | ⟨hm, _⟩ <;> rw [hm] <;> linarith
      · push_neg at h
        have hgp : (0:ℚ) < 1000 * g := by positivity
        dsimp only
        exact ⟨by linarith, h, by linarith⟩
    -- the state after the runoff phase, in both the runoff and the
    -- climate-only branches
    have hrun : ∃ ru e2 gg sc,
        (if s1.doRunoff then k.runoffPhase p.2 s1 else s1) =
          { s1 with newRunoffTime := ru, errorCode := e2, gages := gg, subcatchs := sc } := by
      by_cases hdr : s1.doRunoff
      · obtain ⟨ru, e2, gg, sc, hru⟩ := hk.runoff_frame p.2 s1
        exact ⟨ru, e2, gg, sc, by rw [if_pos hdr, hru]⟩
      · exact ⟨s1.newRunoffTime, s1.errorCode, s1.gages, s1.subcatchs, by rw [if_neg hdr]⟩
    obtain ⟨ru, e2, gg, sc, hs2⟩ := hrun
    rw [hs2]
    set s2 : EngState :=
      { s1 with newRunoffTime := ru, errorCode := e2, gages := gg, subcatchs := sc } with hs2d
    have h2t : s2.newRoutingTime = t := rfl
    have h2rd : s2.routingDuration = RD := rfl
    have h2do : s2.doRouting = s.doRouting := rfl
    obtain ⟨rt, e, nn, ll, htail, htail1, htail2, htail3, htail4, htail5⟩ :=
      execTail_shape k hk s2 p.1 p.2 hp1pos
        (by rw [h2t, h2rd]; exact hpb.1) (by rw [h2rd]; exact hpb.2.1)
        (by rw [h2t]; exact hpb.2.2)
    rw [htail]
    rw [h2t] at htail1 htail4
    rw [h2rd] at htail2 htail5
    rw [h2do] at htail5
    exact ⟨rt, ru, e, gg, sc, nn, ll, rfl, htail1, htail2, htail4, htail5⟩

/-- `saveResults` only moves the report deadline. -/
theorem saveResults_shape (s : EngState) : ∃ rp, saveResults s = { s with reportTime := rp } := by
  unfold saveResults
  split_ifs with h
  · exact ⟨s.reportTime + 1000 * (s.reportStep : ℚ), rfl⟩
  · exact ⟨s.reportTime, rfl⟩

/-- `swmm_step` with a pending sticky error returns that error at once,
reports elapsed time 0 and leaves the state untouched. -/
theorem swmm_step_err (k : Kernels) (s : EngState) (h : s.errorCode ≠ 0) :
    swmm_step k s = (s, s.errorCode, 0) := by
  unfold swmm_step
  rw [if_pos h]

/-- The tail of `swmm_step` after the routing phase: results saving only
moves the report deadline, and the elapsed time follows the horizon test. -/
theorem stepTail_shape (x : EngState) :
    ∃ rp el,
      (if (if x.saveResultsFlag then saveResults x else x).newRoutingTime <
          (if x.saveResultsFlag then saveResults x else x).routingDuration then
        { (if x.saveResultsFlag then saveResults x else x) with
          elapsedTime :=
            (if x.saveResultsFlag then saveResults x else x).newRoutingTime / MSECperDAY }
      else { (if x.saveResultsFlag then saveResults x else x) with elapsedTime := 0 }) =
        { x with reportTime := rp, elapsedTime := el } ∧
      el = (if x.newRoutingTime < x.routingDuration then x.newRoutingTime / MSECperDAY
        else 0) := by
  obtain ⟨rp, hy⟩ : ∃ rp, (if x.saveResultsFlag then saveResults x else x) =
      { x with reportTime := rp } := by
    by_cases hb : x.saveResultsFlag
    · rw [if_pos hb]; exact saveResults_shape x
    · rw [if_neg hb]; exact ⟨x.reportTime, rfl⟩
  rw [hy]
  dsimp only
  by_cases hf : x.newRoutingTime < x.routingDuration
  · rw [if_pos hf, if_pos hf]
    exact ⟨rp, x.newRoutingTime / MSECperDAY, rfl, rfl⟩
  · rw [if_neg hf, if_neg hf]
    exact ⟨rp, 0, rfl, rfl⟩

/-- `swmm_step` on an open, started, error-free state: the state changes
only in the cursors, error code, step counter, report deadline, elapsed
time and kernel-owned object state; the returned elapsed value follows the
horizon test on the final cursor; the cursor strictly advances on an
error-free step short of the horizon and is untouched at or past it. -/
theorem swmm_step_shape (k : Kernels) (hk : KernelsOK k) (s : EngState)
    (h1 : s.errorCode = 0) (h2 : s.isOpen = true) (h3 : s.isStarted = true) :
    ∃ rt ru e gg sc nn ll tc rp el,
      swmm_step k s =
        ({ s with
           newRoutingTime := rt
           newRunoffTime := ru
           errorCode := e
           gages := gg
           subcatchs := sc
           nodes := nn
           links := ll
           totalStepCount := tc
           reportTime := rp
           elapsedTime := el }, e, el) ∧
      s.newRoutingTime ≤ rt ∧
      (s.newRoutingTime < s.routingDuration + 1 → rt < s.routingDuration + 1) ∧
      el = (if rt < s.routingDuration then rt / MSECperDAY else 0) ∧
      (e = 0 → s.newRoutingTime < s.routingDuration → s.newRoutingTime < rt) ∧
      (s.routingDuration ≤ s.newRoutingTime → rt = s.newRoutingTime ∧ e = 0) ∧
      (e = 0 → s.doRouting = false → rt ≤ max s.routingDuration s.newRoutingTime) := by
  simp only [swmm_step]
  rw [if_neg (by simp [h1]), if_neg (by simp [h2]), if_neg (by simp [h3])]
  by_cases hlt : s.newRoutingTime < s.routingDuration
  · rw [if_pos hlt]
    obtain ⟨rt, ru, e, gg, sc, nn, ll, hex, hb1, hb2, hb3, hb4⟩ :=
      execRouting_shape k hk s h1 hlt
    obtain ⟨rp, el, hW, hel⟩ := stepTail_shape (execRouting k s)
    rw [hW, hex]
    rw [hex] at hel
    dsimp only at hel ⊢
    refine ⟨rt, ru, e, gg, sc, nn, ll, s.totalStepCount + 1, rp, el, rfl, hb1,
      fun _ => hb2, hel, fun he _ => hb3 he, fun hge => absurd hlt (not_lt.mpr hge),
      fun he hdo => le_trans (hb4 he hdo) (le_max_left _ _)⟩
  · rw [if_neg hlt]
    push_neg at hlt
    obtain ⟨rp, el, hW, hel⟩ := stepTail_shape s
    rw [hW]
    dsimp only at hel ⊢
    refine ⟨s.newRoutingTime, s.newRunoffTime, s.errorCode, s.gages, s.subcatchs, s.nodes,
      s.links, s.totalStepCount, rp, el, rfl, le_refl _, fun h => by linarith, hel,
      fun _ h => absurd h (not_lt.mpr hlt), fun _ => ⟨rfl, h1⟩,
      fun _ _ => le_max_right _ _⟩

/-! ## Claims C1 and C2 -/

/-- Claim C1: for every call to `swmm_step` on a started, error-free
engine that completes without error, the returned elapsed time is 0
exactly when the routing time cursor has reached or passed
`RoutingDuration` by the end of the call, and otherwise equals
`NewRoutingTime / 86400000` decimal days. -/
theorem claim_C1 (k : Kernels) (hk : KernelsOK k) (s : EngState)
    (hopen : s.isOpen = true) (hstart : s.isStarted = true) (herr : s.errorCode = 0)
    (ht : 0 ≤ s.newRoutingTime) (hret : (swmm_step k s).2.1 = 0) :
    ((swmm_step k s).2.2 = 0 ↔
      (swmm_step k s).1.routingDuration ≤ (swmm_step k s).1.newRoutingTime) ∧
    ((swmm_step k s).1.newRoutingTime < (swmm_step k s).1.routingDuration →
      (swmm_step k s).2.2 = (swmm_step k s).1.newRoutingTime / MSECperDAY) := by
  obtain ⟨rt, ru, e, gg, sc, nn, ll, tc, rp, el, hEq, hb1, hb2, hel, hb3, hb5, hb6⟩ :=
    swmm_step_shape k hk s herr hopen hstart
  rw [hEq] at hret ⊢
  dsimp only at hret ⊢
  by_cases hf : rt < s.routingDuration
  · have hrtpos : 0 < rt := by
      by_cases hentry : s.newRoutingTime < s.routingDuration
      · exact lt_of_le_of_lt ht (hb3 hret hentry)
      · push_neg at hentry
        obtain ⟨h5a, _⟩ := hb5 hentry
        rw [h5a] at hf
        exact absurd hf (not_lt.mpr hentry)
    refine ⟨⟨?_, fun hge => absurd hf (not_lt.mpr hge)⟩, fun _ => ?_⟩
    · rw [hel, if_pos hf]
      intro h0
      have hdiv : 0 < rt / MSECperDAY := div_pos hrtpos (by norm_num [MSECperDAY])
      rw [h0] at hdiv
      exact absurd hdiv (lt_irrefl 0)
    · rw [hel, if_pos hf]
  · push_neg at hf
    exact ⟨⟨fun _ => hf, fun _ => by rw [hel, if_neg (not_lt.mpr hf)]⟩,
      fun hcon => absurd hcon (not_lt.mpr hf)⟩

/-- A started error-free state used to witness claim C1: one hour of
simulation at a 300 s wet-weather step with routing disabled. -/
def sW : EngState :=
  { baseEng with
    isOpen := true
    isStarted := true
    totalDuration := 3600000
    routingDuration := 3600000
    reportTime := 600000 }

theorem claim_C1_witness :
    (swmm_step kW sW).2.1 = 0 ∧
    (((swmm_step kW sW).2.2 = 0 ↔
      (swmm_step kW sW).1.routingDuration ≤ (swmm_step kW sW).1.newRoutingTime) ∧
    ((swmm_step kW sW).1.newRoutingTime < (swmm_step kW sW).1.routingDuration →
      (swmm_step kW sW).2.2 = (swmm_step kW sW).1.newRoutingTime / MSECperDAY)) :=
  ⟨by norm_num [swmm_step, execRouting, saveResults, sW, kW, baseEng, min_def, MSECperDAY,
      ERR_TIMESTEP],
   claim_C1 kW kernelsOK_kW sW rfl rfl rfl (by norm_num [sW, baseEng])
     (by norm_num [swmm_step, execRouting, saveResults, sW, kW, baseEng, min_def, MSECperDAY,
       ERR_TIMESTEP])⟩

/-- Claim C2: once the sticky error code is non-zero, `swmm_step` returns
immediately with that code, stores 0 in the elapsed-time out-parameter and
leaves the engine state unchanged. -/
theorem claim_C2 (k : Kernels) (s : EngState) (h : s.errorCode ≠ 0) :
    swmm_step k s = (s, s.errorCode, 0) :=
  swmm_step_err k s h

theorem claim_C2_witness :
    (({ baseEng with errorCode := 5 } : EngState).errorCode ≠ 0) ∧
    swmm_step kW { baseEng with errorCode := 5 } =
      ({ baseEng with errorCode := 5 },
        ({ baseEng with errorCode := 5 } : EngState).errorCode, 0) :=
  ⟨by decide, claim_C2 kW { baseEng with errorCode := 5 } (by decide)⟩

/-! ## Claim C10 -/

/-- Claim C10: `swmm_close` never fails — in any lifecycle state it
returns 0 and clears both lifecycle flags, and a second consecutive close
is an exact no-op that also returns 0. -/
theorem claim_C10 (s : EngState) :
    (swmm_close s).2 = 0 ∧ (swmm_close s).1.isOpen = false ∧
    (swmm_close s).1.isStarted = false ∧
    swmm_close (swmm_close s).1 = ((swmm_close s).1, 0) :=
  ⟨rfl, rfl, rfl, rfl⟩

/-! ## Claim C4 -/

/-- Claim C4: reader open fails with 435 exactly when the leading magic
number differs from the epilogue magic; with matching magics it fails with
436 exactly when no periods are recorded; and when both checks pass but
the error code written at simulation time is non-zero, it reports warning
10, still reads the header and leaves the handle usable. -/
theorem claim_C4 (f : OutFile) :
    ((SMO_open f).1 = 435 ↔ f.magic1 ≠ f.magic2) ∧
    (f.magic1 = f.magic2 → ((SMO_open f).1 = 436 ↔ f.nperiods ≤ 0)) ∧
    (f.magic1 = f.magic2 → 0 < f.nperiods → f.errCodeAtWrite ≠ 0 →
      (SMO_open f).1 = 10 ∧ (SMO_open f).2 = some (readHeader f)) := by
  by_cases h1 : f.magic1 = f.magic2
  · by_cases h2 : f.nperiods ≤ 0
    · have hres : SMO_open f = (436, none) := by
        simp [SMO_open, validateFile, h1, h2]
      rw [hres]
      exact ⟨by norm_num [h1], fun _ => by norm_num [h2], fun _ hp _ => absurd hp (by omega)⟩
    · by_cases h3 : f.errCodeAtWrite ≠ 0
      · have hres : SMO_open f = (10, some (readHeader f)) := by
          simp [SMO_open, validateFile, h1, h2, h3]
        rw [hres]
        exact ⟨by norm_num [h1], fun _ => by norm_num [h2], fun _ _ _ => ⟨rfl, rfl⟩⟩
      · have hres : SMO_open f = (0, some (readHeader f)) := by
          simp [SMO_open, validateFile, h1, h2, h3]
        rw [hres]
        exact ⟨by norm_num [h1], fun _ => by norm_num [h2], fun _ _ he => absurd he h3⟩
  · have hres : SMO_open f = (435, none) := by
      simp [SMO_open, validateFile, h1]
    rw [hres]
    exact ⟨by norm_num [h1], fun hm => absurd hm h1, fun hm => absurd hm h1⟩

/-- A well-formed output file whose run issued warnings, used to witness
claim C4. -/
def fWarn : OutFile :=
  { magic1 := 516114522
    magic2 := 516114522
    idPos := 100
    objPropPos := 200
    resultsPos := 300
    nperiods := 6
    errCodeAtWrite := 1
    nsubcatch := 0
    nnodes := 0
    nlinks := 1
    npolluts := 0
    subcatchVars := 8
    nodeVars := 6
    linkVars := 5
    sysVars := 15
    startDate := 0
    reportStepSec := 600
    payload := fun _ => 0 }

theorem claim_C4_witness :
    fWarn.magic1 = fWarn.magic2 ∧ 0 < fWarn.nperiods ∧ fWarn.errCodeAtWrite ≠ 0 ∧
    ((SMO_open fWarn).1 = 10 ∧ (SMO_open fWarn).2 = some (readHeader fWarn)) :=
  ⟨rfl, by decide, by decide, (claim_C4 fWarn).2.2 rfl (by decide) (by decide)⟩

/-! ## Claim C7 -/

/-- Claim C7 (amended): the series readers return error 420 exactly when
the element index is negative or exceeds the element count (the index
equal to the count slips through the check), error 422 exactly when the
start period is out of `[0, Nperiods)` or the end period is not past the
start (the end period is never checked against `Nperiods`), and produce an
array exactly when both checks pass. -/
theorem claim_C7_amended (d : SMOData) (i attr sp ep : Int) :
    (((SMO_getLinkSeries d i attr sp ep).1 = 420 ↔ (i < 0 ∨ i > d.nlinks)) ∧
     (¬(i < 0 ∨ i > d.nlinks) →
       ((SMO_getLinkSeries d i attr sp ep).1 = 422 ↔
         (sp < 0 ∨ sp ≥ d.nperiods ∨ ep ≤ sp))) ∧
     ((SMO_getLinkSeries d i attr sp ep).2.isSome = true ↔
       (¬(i < 0 ∨ i > d.nlinks) ∧ ¬(sp < 0 ∨ sp ≥ d.nperiods ∨ ep ≤ sp)))) ∧
    (((SMO_getNodeSeries d i attr sp ep).1 = 420 ↔ (i < 0 ∨ i > d.nnodes)) ∧
     (¬(i < 0 ∨ i > d.nnodes) →
       ((SMO_getNodeSeries d i attr sp ep).1 = 422 ↔
         (sp < 0 ∨ sp ≥ d.nperiods ∨ ep ≤ sp))) ∧
     ((SMO_getNodeSeries d i attr sp ep).2.isSome = true ↔
       (¬(i < 0 ∨ i > d.nnodes) ∧ ¬(sp < 0 ∨ sp ≥ d.nperiods ∨ ep ≤ sp)))) ∧
    (((SMO_getSubcatchSeries d i attr sp ep).1 = 420 ↔ (i < 0 ∨ i > d.nsubcatch)) ∧
     (¬(i < 0 ∨ i > d.nsubcatch) →
       ((SMO_getSubcatchSeries d i attr sp ep).1 = 422 ↔
         (sp < 0 ∨ sp ≥ d.nperiods ∨ ep ≤ sp))) ∧
     ((SMO_getSubcatchSeries d i attr sp ep).2.isSome = true ↔
       (¬(i < 0 ∨ i > d.nsubcatch) ∧ ¬(sp < 0 ∨ sp ≥ d.nperiods ∨ ep ≤ sp)))) := by
  unfold SMO_getLinkSeries SMO_getNodeSeries SMO_getSubcatchSeries
  refine ⟨⟨?_, ?_, ?_⟩, ⟨?_, ?_, ?_⟩, ⟨?_, ?_, ?_⟩⟩ <;> split_ifs <;> simp_all

/-- A six-period output file with one link, used for the claim C7
counterexamples. -/
def fCx : OutFile :=
  { fWarn with errCodeAtWrite := 0, nperiods := 2 }

/-- The reader handle on `fCx`. -/
def dCx : SMOData := readHeader fCx

/-- Claim C7 as stated is false: on a file with one link, the link series
query at element index 1 — outside the valid range `[0, 1)` — succeeds
(returns 0 and an array) instead of failing with the index-range error,
and a query whose end period exceeds the period count also succeeds. -/
theorem claim_C7_counterexample :
    ¬(1 < dCx.nlinks) ∧
    (SMO_getLinkSeries dCx 1 0 0 2).1 = 0 ∧
    (SMO_getLinkSeries dCx 1 0 0 2).2.isSome = true ∧
    dCx.nperiods < 5 ∧
    (SMO_getLinkSeries dCx 0 0 0 5).1 = 0 ∧
    (SMO_getLinkSeries dCx 0 0 0 5).2.isSome = true :=
  ⟨by decide, by decide, by decide, by decide, by decide, by decide⟩

theorem claim_C7_amended_witness :
    (SMO_getLinkSeries dCx 2 0 0 2).1 = 420 ∧
    (SMO_getLinkSeries dCx 0 0 0 2).2.isSome = true :=
  ⟨(claim_C7_amended dCx 2 0 0 2).1.1.mpr (by decide),
   (claim_C7_amended dCx 0 0 0 2).1.2.2.mpr ⟨by decide, by decide⟩⟩

/-! ## Claim C5 -/

/-- A project with one rain gage and one junction node, open and started,
used to exhibit the `swmm_setValueExpanded` dispatch defect. -/
def sC5 : EngState :=
  { baseEng with
    isOpen := true
    isStarted := true
    nGage := 1
    nNode := 1
    gages := [{ apiRainfall := 0 }]
    nodes := [default] }

/-- Claim C5: the expanded setter's switch reads `index` instead of
`objType`.  With `objType = swmm_NODE` and node index 0 the call lands in
the rain-gage setter and returns the property-type error, leaving the
state untouched, although the node setter itself accepts the same write;
and changing only `index` (same `objType`) changes which class setter
runs. -/
theorem claim_C5 :
    (swmm_setValueExpanded kW sC5 swmm_NODE swmm_NODE_LATFLOW 0 (-1) 5).1 =
      ERR_API_PROPERTY_TYPE ∧
    (swmm_setValueExpanded kW sC5 swmm_NODE swmm_NODE_LATFLOW 0 (-1) 5).2 = sC5 ∧
    (setNodeValue sC5 swmm_NODE_LATFLOW 0 (-1) 5).1 = 0 ∧
    (swmm_setValueExpanded kW sC5 swmm_NODE swmm_NODE_LATFLOW 2 (-1) 5).1 =
      ERR_API_OBJECT_INDEX :=
  ⟨rfl, rfl, rfl, rfl⟩

/-! ## Claim C6 -/

/-- An open, started state whose minimum routing step is 2 s. -/
def sR : EngState :=
  { baseEng with isOpen := true, isStarted := true, minRouteStep := 2 }

/-- Claim C6 as stated is false: with `MinRouteStep = 2`, setting
`route_step` to 1 is accepted (returns 0) but the immediately following
get returns 2, not 1 — `setRoutingStep` silently raises values below
`MinRouteStep`. -/
theorem claim_C6_counterexample :
    (setRoutingStep sR 1).1 = 0 ∧
    getSystemValue kW (setRoutingStep sR 1).2 swmm_ROUTESTEP = 2 ∧ ((2:ℚ) ≠ 1) :=
  ⟨rfl, rfl, by norm_num⟩

/-- Claim C6 (amended): a set of `route_step` with a positive value is
accepted, and the immediately following get returns
`max value MinRouteStep` — the written value whenever it is at least
`MinRouteStep`. -/
theorem claim_C6_amended (k : Kernels) (s : EngState) (v : ℚ) (hv : 0 < v) :
    (setRoutingStep s v).1 = 0 ∧
    getSystemValue k (setRoutingStep s v).2 swmm_ROUTESTEP = max v s.minRouteStep := by
  unfold setRoutingStep
  rw [if_neg (not_le.mpr hv)]
  refine ⟨rfl, ?_⟩
  simp only [getSystemValue, swmm_STARTDATE, swmm_CURRENTDATE, swmm_ELAPSEDTIME,
    swmm_ROUTESTEP]
  norm_num
  rw [max_def]

theorem claim_C6_amended_witness :
    (0:ℚ) < 1 ∧ ((setRoutingStep sR 1).1 = 0 ∧
      getSystemValue kW (setRoutingStep sR 1).2 swmm_ROUTESTEP = max 1 sR.minRouteStep) :=
  ⟨by norm_num, claim_C6_amended kW sR 1 (by norm_num)⟩

/-! ## Claim C8 -/

theorem getD_map_eq {α : Type} (f : α → α) (l : List α) (n : ℕ) (d : α) :
    (l.map f).getD n (f d) = f (l.getD n d) := by
  simp [List.getD_eq_getElem?_getD, List.getElem?_map]

theorem listGetD_map_congr {α : Type} (f : α → α) {ls xs : List α}
    (h : ls.map f = xs.map f) (i : Int) (d : α) :
    f (listGetD ls i d) = f (listGetD xs i d) := by
  unfold listGetD
  split_ifs with h0
  · rw [← getD_map_eq f ls, ← getD_map_eq f xs, h]
  · rfl

theorem listGetD_listSet_self {α : Type} (xs : List α) (i : Int) (a d : α)
    (h0 : 0 ≤ i) (h : i.toNat < xs.length) : listGetD (listSet xs i a) i d = a := by
  unfold listGetD listSet
  rw [if_pos h0, if_pos h0]
  simp [List.getD_eq_getElem?_getD, List.getElem?_set_eq_of_lt a h]

theorem listSet_length {α : Type} (xs : List α) (i : Int) (a : α) :
    (listSet xs i a).length = xs.length := by
  unfold listSet
  split_ifs <;> simp

/-- One pump link in its initial state, used for the C8 analysis. -/
def pumpLink : LinkState :=
  { id := "P1", typ := 1, targetSetting := 0, setting := 0, timeLastSet := 0,
    offset1 := 0, offset2 := 0, q0 := 0, qLimit := 0, cLossInlet := 0,
    cLossOutlet := 0, cLossAvg := 0, seepRate := 0, hasFlapGate := false,
    rptFlag := false, apiExtQualMassFlux := [] }

/-- Started project holding a single pump with controls-reporting enabled. -/
def sLink : EngState :=
  { baseEng with
    isOpen := true
    isStarted := true
    nLink := 1
    links := [pumpLink]
    rptControls := true }

/-- Counterexample to claim C8 as stated: writing setting 2 to the pump succeeds
and appends a control action whose reason string is "SWMM API" — the source
passes the literal "SWMM API" to `report_writeControlAction`, never
"external override". -/
theorem claim_C8_counterexample :
    (setLinkSetting kW sLink 0 2).1 = 0 ∧
    (setLinkSetting kW sLink 0 2).2.reportLog.map ControlAction.label = ["SWMM API"] ∧
    "SWMM API" ≠ "external override" := by
  refine ⟨?_, ?_, by decide⟩ <;>
    norm_num [setLinkSetting, sLink, pumpLink, baseEng, kW, updLink, listGetD, listSet,
      getDateTime, PUMP, CONDUIT, ERR_API_OBJECT_INDEX, List.getD_cons_zero]

set_option maxHeartbeats 2000000 in
/-- Claim C8 (amended): a write of the link setting property on a valid
non-conduit link with nonnegative value returns 0 and, writing v' for the
clamped value (capped at 1 for non-pumps): if v' equals the current
target setting the call is a pure no-op; otherwise the target setting is
stored, `timeLastSet` is stamped exactly when v' times the CURRENT setting is
zero, and when controls-reporting is enabled an action record with reason
string "SWMM API" (not "external override") is appended to the report log. -/
theorem claim_C8_amended (k : Kernels) (hk : KernelsOK k) (s : EngState)
    (idx : Int) (v v' : ℚ)
    (hidx0 : 0 ≤ idx) (hidx1 : idx < s.nLink) (hlen : idx.toNat < s.links.length)
    (hv : 0 ≤ v) (htyp : (listGetD s.links idx default).typ ≠ CONDUIT)
    (hv' : v' = if (listGetD s.links idx default).typ ≠ PUMP ∧ v > 1 then 1 else v) :
    (setLinkSetting k s idx v).1 = 0 ∧
    ((listGetD s.links idx default).targetSetting = v' →
      setLinkSetting k s idx v = (0, s)) ∧
    ((listGetD s.links idx default).targetSetting ≠ v' →
      (listGetD (setLinkSetting k s idx v).2.links idx default).targetSetting = v' ∧
      (listGetD (setLinkSetting k s idx v).2.links idx default).timeLastSet =
        (if v' * (listGetD s.links idx default).setting = 0 then
          s.startDateTime + s.elapsedTime
        else (listGetD s.links idx default).timeLastSet) ∧
      (setLinkSetting k s idx v).2.reportLog =
        (if s.rptControls = true then
          s.reportLog ++
            [{ aDate := getDateTime s s.newRoutingTime
               linkID := (listGetD s.links idx default).id
               value := v'
               label := "SWMM API" }]
        else s.reportLog)) := by
  have hA : ¬(idx < 0 ∨ idx ≥ s.nLink) := by push_neg; exact ⟨hidx0, hidx1⟩
  have hB : ¬(v < 0 ∨ (listGetD s.links idx default).typ = CONDUIT) := by
    push_neg; exact ⟨hv, htyp⟩
  simp only [setLinkSetting]
  rw [if_neg hA, if_neg hB, ← hv']
  by_cases heq : (listGetD s.links idx default).targetSetting = v'
  · rw [if_pos heq]
    exact ⟨rfl, fun _ => rfl, fun hne => absurd heq hne⟩
  · rw [if_neg heq]
    refine ⟨rfl, fun h => absurd h heq, fun _ => ?_⟩
    by_cases hst : v' * (listGetD s.links idx default).setting = 0
    · simp only [if_pos hst]
      obtain ⟨ls, hset, hmap⟩ := hk.linkSet_frame idx 0
        (updLink (updLink s idx fun l => { l with targetSetting := v' }) idx
          fun l => { l with timeLastSet := s.startDateTime + s.elapsedTime })
      rw [hset]
      have e1 : listGetD (listSet s.links idx
          { listGetD s.links idx default with targetSetting := v' }) idx default =
          { listGetD s.links idx default with targetSetting := v' } :=
        listGetD_listSet_self _ _ _ _ hidx0 hlen
      have e2 : listGetD (listSet (listSet s.links idx
          { listGetD s.links idx default with targetSetting := v' }) idx
          { listGetD (listSet s.links idx
              { listGetD s.links idx default with targetSetting := v' }) idx default with
            timeLastSet := s.startDateTime + s.elapsedTime }) idx default =
          { listGetD (listSet s.links idx
              { listGetD s.links idx default with targetSetting := v' }) idx default with
            timeLastSet := s.startDateTime + s.elapsedTime } :=
        listGetD_listSet_self _ _ _ _ hidx0 (by rw [listSet_length]; exact hlen)
      have h1 := listGetD_map_congr linkShape hmap idx default
      simp only [updLink] at h1
      rw [e2, e1] at h1
      simp only [linkShape] at h1
      have hts := congrArg LinkState.targetSetting h1
      have htl := congrArg LinkState.timeLastSet h1
      have hid := congrArg LinkState.id h1
      dsimp at hts htl hid
      simp only [updLink]
      by_cases hrc : s.rptControls = true
      · rw [if_pos hrc, if_pos hrc]
        refine ⟨hts, htl, ?_⟩
        simp only [getDateTime]
        rw [hid]
      · rw [if_neg hrc, if_neg hrc]
        exact ⟨hts, htl, rfl⟩
    · simp only [if_neg hst]
      obtain ⟨ls, hset, hmap⟩ := hk.linkSet_frame idx 0
        (updLink s idx fun l => { l with targetSetting := v' })
      rw [hset]
      have e1 : listGetD (listSet s.links idx
          { listGetD s.links idx default with targetSetting := v' }) idx default =
          { listGetD s.links idx default with targetSetting := v' } :=
        listGetD_listSet_self _ _ _ _ hidx0 hlen
      have h1 := listGetD_map_congr linkShape hmap idx default
      simp only [updLink] at h1
      rw [e1] at h1
      simp only [linkShape] at h1
      have hts := congrArg LinkState.targetSetting h1
      have htl := congrArg LinkState.timeLastSet h1
      have hid := congrArg LinkState.id h1
      dsimp at hts htl hid
      simp only [updLink]
      by_cases hrc : s.rptControls = true
      · rw [if_pos hrc, if_pos hrc]
        refine ⟨hts, htl, ?_⟩
        simp only [getDateTime]
        rw [hid]
      · rw [if_neg hrc, if_neg hrc]
        exact ⟨hts, htl, rfl⟩

/-- The amended C8 theorem instantiated: writing setting 2 to the single pump of
`sLink` returns 0. -/
theorem claim_C8_amended_witness :
    (setLinkSetting kW sLink 0 2).1 = 0 :=
  (claim_C8_amended kW kernelsOK_kW sLink 0 2 2 (by decide) (by decide) (by decide)
    (by norm_num) (by decide) (by decide)).1

/-! ## Claim C3 -/

/-- Exit analysis of the `swmm_stride` inner loop: when the loop exits
through its own condition, the routing duration, total duration and route
step are untouched, the routing time has not moved backwards and stays
below `routingDuration + 1`; if moreover the exit is error-free the
routing time has reached the (capped) routing duration, exactly so when
dynamic routing is off. -/
theorem strideLoop_exit (k : Kernels) (hk : KernelsOK k) :
    ∀ fuel (s : EngState), s.errorCode = 0 → s.isOpen = true → s.isStarted = true →
      0 ≤ s.newRoutingTime → s.newRoutingTime < s.routingDuration + 1 →
      (s.doRouting = false → s.newRoutingTime ≤ s.routingDuration) →
      (strideLoop k fuel s).2.2 = true →
      (strideLoop k fuel s).1.routingDuration = s.routingDuration ∧
      (strideLoop k fuel s).1.totalDuration = s.totalDuration ∧
      s.newRoutingTime ≤ (strideLoop k fuel s).1.newRoutingTime ∧
      (strideLoop k fuel s).1.newRoutingTime < s.routingDuration + 1 ∧
      ((strideLoop k fuel s).1.errorCode = 0 →
        s.routingDuration ≤ (strideLoop k fuel s).1.newRoutingTime ∧
        (s.doRouting = false →
          (strideLoop k fuel s).1.newRoutingTime = s.routingDuration)) := by
  intro fuel
  induction fuel with
  | zero =>
    intro s _ _ _ _ _ _ hdone
    exact absurd hdone (by simp [strideLoop])
  | succ fuel ih =>
    intro s h1 h2 h3 ht0 htlt hdr hdone
    obtain ⟨rt, ru, e, gg, sc, nn, ll, tc, rp, el, hex, hb1, hb2, hb3, hb4, hb5, hb6⟩ :=
      swmm_step_shape k hk s h1 h2 h3
    set S : EngState := (swmm_step k s).1 with hS
    have hec : S.errorCode = e := by rw [hS, hex]
    have hio : S.isOpen = true := by rw [hS, hex]; exact h2
    have his : S.isStarted = true := by rw [hS, hex]; exact h3
    have hrt : S.newRoutingTime = rt := by rw [hS, hex]
    have hRDeq : S.routingDuration = s.routingDuration := by rw [hS, hex]
    have hTDeq : S.totalDuration = s.totalDuration := by rw [hS, hex]
    have hdo : S.doRouting = s.doRouting := by rw [hS, hex]
    have hel2 : (swmm_step k s).2.2 = el := by rw [hex]
    simp only [strideLoop] at hdone ⊢
    rw [hel2, hec] at hdone ⊢
    by_cases hc : el > 0 ∧ e = 0
    · rw [if_pos hc] at hdone ⊢
      have hdr' : S.doRouting = false → S.newRoutingTime ≤ S.routingDuration := by
        intro hdf
        rw [hrt, hRDeq]
        have h6 := hb6 hc.2 (hdo.symm.trans hdf)
        rwa [max_eq_left (hdr (hdo.symm.trans hdf))] at h6
      have key := ih S (hec.trans hc.2) hio his
        (by rw [hrt]; exact le_trans ht0 hb1)
        (by rw [hrt, hRDeq]; exact hb2 htlt) hdr' hdone
      have k3 := key.2.2.1
      rw [hrt] at k3
      have k4 := key.2.2.2.1
      rw [hRDeq] at k4
      refine ⟨key.1.trans hRDeq, key.2.1.trans hTDeq, le_trans hb1 k3, k4, fun h0 => ?_⟩
      have k5 := key.2.2.2.2 h0
      have k51 := k5.1
      rw [hRDeq] at k51
      refine ⟨k51, fun hdf => ?_⟩
      have k52 := k5.2 (hdo.trans hdf)
      rwa [hRDeq] at k52
    · rw [if_neg hc] at hdone ⊢
      dsimp only
      refine ⟨hRDeq, hTDeq, ?_, ?_, fun h0 => ?_⟩
      · rw [hrt]; exact hb1
      · rw [hrt]; exact hb2 htlt
      · have he0 : e = 0 := hec.symm.trans h0
        have hel0 : el ≤ 0 := by
          rcases not_and_or.mp hc with h | h
          · exact not_lt.mp h
          · exact absurd he0 h
        have hrt0 : 0 ≤ rt := le_trans ht0 hb1
        have hRD : s.routingDuration ≤ rt := by
          by_contra hlt'
          push_neg at hlt'
          rw [if_pos hlt'] at hb3
          have hdiv : 0 ≤ rt / MSECperDAY := by
            apply div_nonneg hrt0
            norm_num [MSECperDAY]
          have hrt' : rt / MSECperDAY = 0 := le_antisymm (hb3 ▸ hel0) hdiv
          have hrtz : rt = 0 := by
            rcases div_eq_zero_iff.mp hrt' with h | h
            · exact h
            · exact absurd h (by norm_num [MSECperDAY])
          have htz : s.newRoutingTime = 0 := le_antisymm (hrtz ▸ hb1) ht0
          have hcon := hb4 he0 (by rw [htz]; exact lt_of_le_of_lt hrt0 (hrtz ▸ hlt'))
          rw [htz, hrtz] at hcon
          exact absurd hcon (lt_irrefl 0)
        refine ⟨by rw [hrt]; exact hRD, fun hdf => ?_⟩
        have h6 := hb6 he0 hdf
        rw [max_eq_left (hdr hdf)] at h6
        rw [hrt]
        exact le_antisymm h6 hRD

/-- Claim C3 (amended): for a started, error-free simulation with
`newRoutingTime = T`, a stride of `s` seconds that exits through the loop
condition without error advances `newRoutingTime` to at least the capped
horizon `min(totalDuration, T + 1000 s)` — exactly onto it whenever dynamic
routing is off, and in any case overshooting it by strictly less than one
millisecond — and on return `routeStep` is restored to its pre-call value
and `routingDuration` to the full total duration. -/
theorem claim_C3_amended (k : Kernels) (hk : KernelsOK k) (fuel : ℕ) (strideStep : Int)
    (s : EngState)
    (h1 : s.errorCode = 0) (h2 : s.isOpen = true) (h3 : s.isStarted = true)
    (ht0 : 0 ≤ s.newRoutingTime) (htd : s.newRoutingTime ≤ s.totalDuration)
    (hss : 0 ≤ strideStep)
    (hdone : (swmm_stride k strideStep fuel s).2.2.2 = true)
    (herr : (swmm_stride k strideStep fuel s).2.1 = 0) :
    min s.totalDuration (s.newRoutingTime + 1000 * (strideStep : ℚ)) ≤
      (swmm_stride k strideStep fuel s).1.newRoutingTime ∧
    (swmm_stride k strideStep fuel s).1.newRoutingTime <
      min s.totalDuration (s.newRoutingTime + 1000 * (strideStep : ℚ)) + 1 ∧
    (s.doRouting = false →
      (swmm_stride k strideStep fuel s).1.newRoutingTime =
        min s.totalDuration (s.newRoutingTime + 1000 * (strideStep : ℚ))) ∧
    (swmm_stride k strideStep fuel s).1.routeStep = s.routeStep ∧
    (swmm_stride k strideStep fuel s).1.routingDuration = s.totalDuration := by
  have hne1 : ¬(s.errorCode ≠ 0) := by simp [h1]
  have hne2 : ¬¬(s.isOpen = true) := by simp [h2]
  have hne3 : ¬¬(s.isStarted = true) := by simp [h3]
  have hss' : (0 : ℚ) ≤ (strideStep : ℚ) := by exact_mod_cast hss
  have hle : s.newRoutingTime ≤
      min s.totalDuration (s.newRoutingTime + 1000 * (strideStep : ℚ)) :=
    le_min htd (by linarith)
  simp only [swmm_stride] at hdone herr ⊢
  rw [if_neg hne1, if_neg hne2, if_neg hne3] at hdone herr ⊢
  dsimp only at hdone herr ⊢
  obtain ⟨rs, hs2⟩ : ∃ rs, (if (strideStep : ℚ) < s.routeStep then
      { s with
        routingDuration := min s.totalDuration (s.newRoutingTime + 1000 * (strideStep : ℚ))
        routeStep := (strideStep : ℚ) }
    else { s with
        routingDuration := min s.totalDuration
          (s.newRoutingTime + 1000 * (strideStep : ℚ)) }) =
      { s with
        routingDuration := min s.totalDuration (s.newRoutingTime + 1000 * (strideStep : ℚ))
        routeStep := rs } := by
    by_cases hcap : (strideStep : ℚ) < s.routeStep
    · exact ⟨(strideStep : ℚ), by rw [if_pos hcap]⟩
    · exact ⟨s.routeStep, by rw [if_neg hcap]⟩
  rw [hs2] at hdone herr ⊢
  simp only [apply_ite EngState.errorCode, ite_self] at herr
  have key := strideLoop_exit k hk fuel
    { s with
      routingDuration := min s.totalDuration (s.newRoutingTime + 1000 * (strideStep : ℚ))
      routeStep := rs }
    h1 h2 h3 ht0 (lt_of_le_of_lt hle (lt_add_one _)) (fun _ => hle) hdone
  have kerr := key.2.2.2.2 herr
  simp only [apply_ite EngState.newRoutingTime, apply_ite EngState.routeStep,
    apply_ite EngState.routingDuration, ite_self]
  exact ⟨kerr.1, key.2.2.2.1, fun hdf => kerr.2 hdf, trivial, key.2.1⟩

/-- Kernels exhibiting the stride overshoot: the dynamic-routing step
suggestion is 1999/2000 s on the first step of a stride and 1 s afterwards;
routing advances the clock by exactly the granted step, as dynwave.c does. -/
def kCx : Kernels :=
  { kW with getRoutingStep := fun s => if s.newRoutingTime = 0 then 1999 / 2000 else 1 }

/-- Started project with a 2000 ms total duration and dynamic routing on,
used for the C3 counterexample. -/
def sCx3 : EngState :=
  { baseEng with
    isOpen := true
    isStarted := true
    totalDuration := 2000
    routingDuration := 2000
    doRouting := true }

set_option maxHeartbeats 4000000 in
/-- Counterexample to claim C3 as stated: a stride of 1 s from time 0 exits
cleanly but lands on 1000.5 ms, not on the claimed exact advance
min(1000 * 1, 2000 - 0) = 1000 ms: the final clamped step is raised to the
1/1000 s floor and overshoots the capped horizon by half a millisecond. -/
theorem claim_C3_counterexample :
    (swmm_stride kCx 1 3 sCx3).2.2.2 = true ∧
    (swmm_stride kCx 1 3 sCx3).2.1 = 0 ∧
    (swmm_stride kCx 1 3 sCx3).1.newRoutingTime = 2001 / 2 ∧
    sCx3.newRoutingTime + min (1000 * (1 : ℚ)) (sCx3.totalDuration - sCx3.newRoutingTime)
      = 1000 ∧
    (2001 / 2 : ℚ) ≠ 1000 := by
  refine ⟨?_, ?_, ?_, ?_, by norm_num⟩ <;>
    norm_num [swmm_stride, strideLoop, swmm_step, execRouting, saveResults, kCx, kW, sCx3,
      baseEng, min_def, max_def, MSECperDAY, ERR_TIMESTEP]

/-- Started project with a 2000 ms total duration and dynamic routing off,
used to witness the amended C3 stride contract. -/
def sW3 : EngState :=
  { baseEng with
    isOpen := true
    isStarted := true
    totalDuration := 2000
    routingDuration := 2000 }

/-- The amended C3 theorem instantiated: a 1 s stride on `sW3` lands exactly
on the capped horizon and restores the route step and routing duration. -/
theorem claim_C3_amended_witness :
    min sW3.totalDuration (sW3.newRoutingTime + 1000 * ((1 : Int) : ℚ)) ≤
      (swmm_stride kW 1 2 sW3).1.newRoutingTime ∧
    (swmm_stride kW 1 2 sW3).1.newRoutingTime <
      min sW3.totalDuration (sW3.newRoutingTime + 1000 * ((1 : Int) : ℚ)) + 1 ∧
    (sW3.doRouting = false →
      (swmm_stride kW 1 2 sW3).1.newRoutingTime =
        min sW3.totalDuration (sW3.newRoutingTime + 1000 * ((1 : Int) : ℚ))) ∧
    (swmm_stride kW 1 2 sW3).1.routeStep = sW3.routeStep ∧
    (swmm_stride kW 1 2 sW3).1.routingDuration = sW3.totalDuration :=
  claim_C3_amended kW kernelsOK_kW 2 1 sW3 rfl rfl rfl (by norm_num [sW3, baseEng])
    (by norm_num [sW3, baseEng]) (by decide)
    (by norm_num [swmm_stride, strideLoop, swmm_step, execRouting, saveResults, kW, sW3,
      baseEng, min_def, max_def, MSECperDAY, ERR_TIMESTEP])
    (by norm_num [swmm_stride, strideLoop, swmm_step, execRouting, saveResults, kW, sW3,
      baseEng, min_def, max_def, MSECperDAY, ERR_TIMESTEP])

/-! ## Claim C9 -/

/-- An `InitFrame` call leaves the clock, lifecycle and duration fields
of the engine state unchanged. -/
theorem initFrame_pres {f : EngState → EngState} (hf : InitFrame f) (σ : EngState) :
    (f σ).totalDuration = σ.totalDuration ∧ (f σ).newRoutingTime = σ.newRoutingTime ∧
    (f σ).routingDuration = σ.routingDuration ∧ (f σ).isOpen = σ.isOpen ∧
    (f σ).isStarted = σ.isStarted := by
  obtain ⟨e, g, sc, n, o, l, np, h⟩ := hf σ
  rw [h]
  exact ⟨rfl, rfl, rfl, rfl, rfl⟩

set_option maxHeartbeats 4000000 in
/-- A `swmm_start` on an open, error-free, not-yet-started project zeroes the
routing clock, sets the routing duration to the total duration, leaves the total
duration untouched and marks the simulation started — whichever of its
initialisation paths it takes. -/
theorem swmm_start_shape (k : Kernels) (hk : KernelsOK k) (s : EngState)
    (h1 : s.errorCode = 0) (h2 : s.isOpen = true) (h3 : s.isStarted = false) :
    (swmm_start k true s).1.totalDuration = s.totalDuration ∧
    (swmm_start k true s).1.newRoutingTime = 0 ∧
    (swmm_start k true s).1.routingDuration = s.totalDuration ∧
    (swmm_start k true s).1.isOpen = true ∧
    (swmm_start k true s).1.isStarted = true := by
  have hg1 : ¬(s.errorCode ≠ 0) := by simp [h1]
  have hg2 : ¬¬(s.isOpen = true) := by simp [h2]
  have hg3 : ¬(s.isStarted = true) := by simp [h3]
  simp only [swmm_start]
  rw [if_neg hg1, if_neg hg2, if_neg hg3]
  refine ⟨?_, ?_, ?_, ?_, ?_⟩ <;>
    · repeat' split
      all_goals
        simp [h2, initFrame_pres hk.rainOpen_frame, initFrame_pres hk.projectInit_frame,
          initFrame_pres hk.outputOpen_frame, initFrame_pres hk.runoffOpen_frame,
          initFrame_pres hk.hotstartOpen_frame, initFrame_pres hk.routingOpen_frame,
          initFrame_pres hk.massbalOpen_frame, initFrame_pres hk.statsOpen_frame]

/-- Every progress value accumulated by the `swmm_run_with_callback` loop on a
well-clocked state lies in `[0, 1 + 1/totalDuration)`. -/
theorem runLoop_bound (k : Kernels) (hk : KernelsOK k) :
    ∀ fuel (s : EngState) (acc : List ℚ), s.errorCode = 0 → s.isOpen = true →
      s.isStarted = true → 0 ≤ s.newRoutingTime →
      s.newRoutingTime < s.routingDuration + 1 →
      s.routingDuration = s.totalDuration → 0 < s.totalDuration →
      (∀ q ∈ acc, 0 ≤ q ∧ q < 1 + 1 / s.totalDuration) →
      ∀ q ∈ (runLoop k true fuel s acc).2.1, 0 ≤ q ∧ q < 1 + 1 / s.totalDuration := by
  intro fuel
  induction fuel with
  | zero =>
    intro s acc _ _ _ _ _ _ _ hacc
    simpa [runLoop] using hacc
  | succ fuel ih =>
    intro s acc h1 h2 h3 ht0 htlt hrdtd htd hacc
    obtain ⟨rt, ru, e, gg, sc, nn, ll, tc, rp, el, hex, hb1, hb2, hb3, hb4, hb5, hb6⟩ :=
      swmm_step_shape k hk s h1 h2 h3
    have hec2 : (swmm_step k s).1.errorCode = e := by rw [hex]
    have hio2 : (swmm_step k s).1.isOpen = true := by rw [hex]; exact h2
    have his2 : (swmm_step k s).1.isStarted = true := by rw [hex]; exact h3
    have hrt2 : (swmm_step k s).1.newRoutingTime = rt := by rw [hex]
    have hRD2 : (swmm_step k s).1.routingDuration = s.routingDuration := by rw [hex]
    have hTD2 : (swmm_step k s).1.totalDuration = s.totalDuration := by rw [hex]
    have hel2 : (swmm_step k s).2.2 = el := by rw [hex]
    have hv : 0 ≤ rt / s.totalDuration ∧ rt / s.totalDuration < 1 + 1 / s.totalDuration := by
      constructor
      · exact div_nonneg (le_trans ht0 hb1) (le_of_lt htd)
      · have hlt : rt < s.totalDuration + 1 := by rw [← hrdtd]; exact hb2 htlt
        rw [div_lt_iff₀ htd]
        have hexp : (1 + 1 / s.totalDuration) * s.totalDuration = s.totalDuration + 1 := by
          field_simp
        rw [hexp]
        exact hlt
    simp only [runLoop]
    rw [hel2, hec2, hrt2, hTD2]
    by_cases hc : el > 0 ∧ e = 0
    · rw [if_pos hc, ← hTD2]
      refine ih _ _ (hec2.trans hc.2) hio2 his2 ?_ ?_ ?_ ?_ ?_
      · rw [hrt2]; exact le_trans ht0 hb1
      · rw [hrt2, hRD2]; exact hb2 htlt
      · rw [hRD2, hTD2]; exact hrdtd
      · rw [hTD2]; exact htd
      · rw [hTD2]
        intro q hq'
        rcases List.mem_append.mp hq' with h | h
        · exact hacc q h
        · rw [List.mem_singleton.mp h]; exact hv
    · rw [if_neg hc]
      dsimp only
      intro q hq'
      rcases List.mem_append.mp hq' with h | h
      · exact hacc q h
      · rw [List.mem_singleton.mp h]; exact hv

/-- Claim C9 (amended): during `run_with_callback` on kernels whose open phase
leaves the project open, not started and with a positive total duration, the
progress callback is invoked once after every step with
`newRoutingTime / totalDuration`, and every value passed lies in
`[0, 1 + 1/totalDuration)` — nonnegative, but possibly exceeding 1 by less
than one millisecond's worth on the final step. -/
theorem claim_C9_amended (k : Kernels) (hk : KernelsOK k) (fuel : ℕ) (s : EngState)
    (hopen2 : (swmm_open k (runInit s)).1.isOpen = true)
    (hopen3 : (swmm_open k (runInit s)).1.isStarted = false)
    (hTD : 0 < (swmm_open k (runInit s)).1.totalDuration) :
    ∀ q ∈ (swmm_run_with_callback k true fuel s).2.2,
      0 ≤ q ∧ q < 1 + 1 / (swmm_open k (runInit s)).1.totalDuration := by
  simp only [swmm_run_with_callback]
  by_cases hE0 : (swmm_open k (runInit s)).1.errorCode = 0
  · rw [if_pos hE0]
    by_cases hS0 : (swmm_start k true (swmm_open k (runInit s)).1).1.errorCode = 0
    · rw [if_pos hS0]
      obtain ⟨hTD', hRT', hRD', hIO', hIS'⟩ :=
        swmm_start_shape k hk ((swmm_open k (runInit s)).1) hE0 hopen2 hopen3
      dsimp only
      rw [← hTD']
      refine runLoop_bound k hk fuel _ _ hS0 hIO' hIS' ?_ ?_ ?_ ?_ ?_
      · rw [hRT']
      · rw [hRT', hRD']
        linarith
      · rw [hRD', hTD']
      · rw [hTD']; exact hTD
      · intro q hq
        exact absurd hq (List.not_mem_nil q)
    · rw [if_neg hS0]
      dsimp only
      intro q hq
      exact absurd hq (List.not_mem_nil q)
  · rw [if_neg hE0]
    dsimp only
    intro q hq
    exact absurd hq (List.not_mem_nil q)

/-- Project with a 1000 ms total duration and one node (so dynamic routing is
on), used for the C9 counterexample. -/
def sCx9 : EngState :=
  { baseEng with
    totalDuration := 1000
    nNode := 1 }

set_option maxHeartbeats 8000000 in
/-- Counterexample to claim C9 as stated: running `sCx9` under the `kCx`
kernels invokes the callback with 1999/2000 and then with 2001/2000 — the
final raised-to-the-floor routing step overshoots the horizon, so the last
progress value exceeds 1. -/
theorem claim_C9_counterexample :
    (swmm_run_with_callback kCx true 3 sCx9).2.2 = [1999 / 2000, 2001 / 2000] ∧
    (1 : ℚ) < 2001 / 2000 := by
  refine ⟨?_, by norm_num⟩
  norm_num [swmm_run_with_callback, runInit, swmm_open, swmm_start, swmm_end, swmm_report,
    swmm_close, projectCloseModel, runLoop, swmm_step, execRouting, saveResults, kCx, kW,
    sCx9, baseEng, min_def, max_def, MSECperDAY, ERR_TIMESTEP, ERR_API_NOT_OPEN,
    ERR_API_NOT_ENDED]

/-- Project with a 2000 ms total duration and no routing objects, used to
witness the amended C9 bound. -/
def sW9 : EngState :=
  { baseEng with totalDuration := 2000 }

set_option maxHeartbeats 8000000 in
/-- The amended C9 theorem instantiated at the one progress value the run of
`sW9` under the well-behaved kernels emits: 1 is within the amended bound. -/
theorem claim_C9_amended_witness :
    0 ≤ (1 : ℚ) ∧ (1 : ℚ) < 1 + 1 / (swmm_open kW (runInit sW9)).1.totalDuration :=
  claim_C9_amended kW kernelsOK_kW 2 sW9
    (by norm_num [swmm_open, runInit, kW, sW9, baseEng])
    (by norm_num [swmm_open, runInit, kW, sW9, baseEng])
    (by norm_num [swmm_open, runInit, kW, sW9, baseEng]) 1
    (by norm_num [swmm_run_with_callback, runInit, swmm_open, swmm_start, swmm_end,
      swmm_report, swmm_close, projectCloseModel, runLoop, swmm_step, execRouting,
      saveResults, kW, sW9, baseEng, min_def, max_def, MSECperDAY, ERR_TIMESTEP])
